import Mathlib

/-!
# Verification of the `sudoku` constraint-propagation solver

Shallow embedding of `src/main.rs` (a 9×9 Sudoku naked-singles solver).

Modelling conventions:
* Rust `u8` digits are `Nat`; `Vec<u8>` candidate sets are `List Nat`.
* A Rust panic (the `assert!` in `SudokuCell::eliminate`, or an
  out-of-bounds `self.board[idx]` access) is modelled as `Option.none`;
  a normal return is `some`.
* Rust `String`s are `List Char` (the program only handles ASCII input).
* `TryFrom<String> for Sudoku` returns `Result<Self, ()>`; we model it as
  `Except Unit Board`, `Except.error ()` being `Err(())`.
-/

/-- The `Cell<S, T>` enum: either a fixed value or a collection of
still-possible values. -/
inductive Cell (S T : Type) where
  | value : S → Cell S T
  | possibly : T → Cell S T
deriving DecidableEq, Repr

/-- `Cell::finished`: `matches!(self, Cell::Value(..))`. -/
def Cell.finished : Cell S T → Bool
  | .value _ => true
  | .possibly _ => false

/-- `Cell::get`: `Some(value)` for a `Value` cell, `None` otherwise. -/
def Cell.get : Cell S T → Option S
  | .value v => some v
  | .possibly _ => none

/-- `SudokuCell` wraps `Cell<u8, Vec<u8>>`; the newtype wrapper is
transparent (`Deref`), so we identify it with the cell itself. -/
abbrev SudokuCell := Cell Nat (List Nat)

/-- `SudokuCell::all`: `(1..=9).collect()`. -/
def SudokuCell.all : List Nat := List.range' 1 9

/-- `SudokuCell::eliminate`.  In Rust: on a `Possibly` cell, remove the
first occurrence of `value` (if present), `assert!(!values.is_empty())`
(modelled: `none` when the assert fires, i.e. a panic), then promote a
singleton to `Value(values[0])`.  A `Value` cell is left untouched. -/
def SudokuCell.eliminate (cell : SudokuCell) (value : Nat) : Option SudokuCell :=
  match cell with
  | .value v => some (.value v)
  | .possibly values =>
      let values := values.erase value
      if values.isEmpty then none
      else if values.length = 1 then some (.value (values.headD 0))
      else some (.possibly values)

/-- The board: `Vec<SudokuCell>` of length 81, row-major. -/
abbrev Board := List SudokuCell

instance {ε α : Type} [DecidableEq ε] [DecidableEq α] :
    DecidableEq (Except ε α) := fun x y =>
  match x, y with
  | .ok a, .ok b => decidable_of_iff (a = b) (by simp)
  | .error a, .error b => decidable_of_iff (a = b) (by simp)
  | .ok _, .error _ => isFalse (by simp)
  | .error _, .ok _ => isFalse (by simp)

namespace Sudoku

/-- `Sudoku::new`: 81 cells, each `Possibly` of the full candidate list. -/
def new : Board := List.replicate 81 (Cell.possibly SudokuCell.all)

/-- `Sudoku::finished`: all cells are `Value`s. -/
def finished (board : Board) : Bool := board.all Cell.finished

/-- `Sudoku::index`: `row * 9 + column`. -/
def index (row column : Nat) : Nat := row * 9 + column

/-- `Sudoku::row_indices`: `(0..9).map(|column| index(row, column))`. -/
def row_indices (row : Nat) : List Nat :=
  (List.range 9).map (fun column => index row column)

/-- `Sudoku::column_indices`: `(0..9).map(|row| index(row, column))`. -/
def column_indices (column : Nat) : List Nat :=
  (List.range 9).map (fun row => index row column)

/-- `Sudoku::box_indices`: with `base_row = box_index % 3` and
`base_column = box_index / 3`, the nested `for row in 0..3 { for column
in 0..3 { ... } }` loop filling the 9 indices in order. -/
def box_indices (box_index : Nat) : List Nat :=
  let base_row := box_index % 3
  let base_column := box_index / 3
  (List.range 3).flatMap fun row =>
    (List.range 3).map fun column =>
      index (base_row * 3 + row) (base_column * 3 + column)

/-- The value-collection phase of `solve_constraint`:
`indices.iter().filter_map(|&idx| self.board[idx].get()).copied().collect()`.
An out-of-range `self.board[idx]` is a panic (`none`). -/
def collectValues (board : Board) (indices : List Nat) : Option (List Nat) :=
  match indices with
  | [] => some []
  | idx :: rest =>
      match List.get? board idx with
      | none => none
      | some cell =>
          match collectValues board rest with
          | none => none
          | some vs =>
              match cell.get with
              | some v => some (v :: vs)
              | none => some vs

/-- One elimination: `self.board[idx].eliminate(value)` (in-place update
of slot `idx`; a panic in indexing or in `eliminate` is `none`). -/
def eliminateAt (board : Board) (idx : Nat) (value : Nat) : Option Board :=
  match List.get? board idx with
  | none => none
  | some cell =>
      match cell.eliminate value with
      | none => none
      | some cell => some (board.set idx cell)

/-- The inner loop `for idx in indices { self.board[idx].eliminate(value) }`. -/
def eliminateIndices (board : Board) (indices : List Nat) (value : Nat) :
    Option Board :=
  match indices with
  | [] => some board
  | idx :: rest =>
      match eliminateAt board idx value with
      | none => none
      | some board => eliminateIndices board rest value

/-- The outer loop `for value in values { for idx in indices { ... } }`. -/
def eliminateValues (board : Board) (indices : List Nat) (values : List Nat) :
    Option Board :=
  match values with
  | [] => some board
  | v :: rest =>
      match eliminateIndices board indices v with
      | none => none
      | some board => eliminateValues board indices rest

/-- `Sudoku::solve_constraint`: collect the fixed digits of the group,
then eliminate each collected digit from every cell of the group. -/
def solve_constraint (board : Board) (indices : List Nat) : Option Board :=
  match collectValues board indices with
  | none => none
  | some values => eliminateValues board indices values

/-- The loop `for indices in (0..9).map(f) { self.solve_constraint(indices) }`
shared by `solve_rows` / `solve_columns` / `solve_boxes`. -/
def solveGroups (board : Board) (groups : List (List Nat)) : Option Board :=
  match groups with
  | [] => some board
  | g :: rest =>
      match solve_constraint board g with
      | none => none
      | some board => solveGroups board rest

/-- `Sudoku::solve_rows`. -/
def solve_rows (board : Board) : Option Board :=
  solveGroups board ((List.range 9).map row_indices)

/-- `Sudoku::solve_columns`. -/
def solve_columns (board : Board) : Option Board :=
  solveGroups board ((List.range 9).map column_indices)

/-- `Sudoku::solve_boxes`. -/
def solve_boxes (board : Board) : Option Board :=
  solveGroups board ((List.range 9).map box_indices)

/-- `Sudoku::step`: rows, then columns, then boxes. -/
def step (board : Board) : Option Board :=
  match solve_rows board with
  | none => none
  | some board =>
      match solve_columns board with
      | none => none
      | some board => solve_boxes board

/-- The `while !self.finished()` loop of `Sudoku::solve`.  The loop
carries `step_count`, incremented after each `step()`, and breaks
(returning the current board, after printing a notice) once
`step_count > 81`.  We carry the equivalent remaining-round budget
`remaining = 81 - step_count` instead, so the recursion is structural:
`remaining = 0` exactly when the incremented count would exceed 81. -/
def solveLoop (board : Board) (remaining : Nat) : Option Board :=
  if finished board then some board
  else
    match step board with
    | none => none
    | some board' =>
        match remaining with
        | 0 => some board'
        | r + 1 => solveLoop board' r

/-- `Sudoku::solve`: run the loop with `step_count = 0`, i.e. a budget
of 81 further rounds after the first. -/
def solve (board : Board) : Option Board := solveLoop board 81

end Sudoku

/-- ASCII fragment of Rust's `char::is_whitespace` (Unicode
`White_Space`); the program only meets ASCII input. -/
def isWhitespaceChar (c : Char) : Bool :=
  c = ' ' || c = '\t' || c = '\n' || c = '\x0b' || c = '\x0c' || c = '\r'

/-- Rust `str::trim`: drop leading and trailing whitespace. -/
def trimLine (l : List Char) : List Char :=
  ((l.dropWhile isWhitespaceChar).reverse.dropWhile isWhitespaceChar).reverse

/-- Split a character list at `'\n'`, keeping empty pieces.  Composed
with per-line `trim` and concatenation this agrees with Rust's
`value.lines().map(|line| line.trim()).collect::<String>()` (Rust's
`lines` drops a final empty piece and a line's trailing `'\r'`, but both
are erased by `trim` anyway). -/
def splitNewlines (s : List Char) : List (List Char) :=
  match s with
  | [] => [[]]
  | c :: rest =>
      match splitNewlines rest with
      | [] => [[c]]
      | l :: ls => if c = '\n' then [] :: l :: ls else (c :: l) :: ls

/-- `value = value.lines().map(|line| line.trim()).collect();` -/
def cleanInput (s : List Char) : List Char :=
  (splitNewlines s).flatMap trimLine

/-- Rust `u8::from_str` on a character list (decimal, no sign handling —
the program only parses single digit characters). -/
def u8FromChars (chars : List Char) : Option Nat :=
  if chars ≠ [] ∧ chars.all Char.isDigit then
    let n := chars.foldl (fun acc c => acc * 10 + (c.toNat - 48)) 0
    if n < 256 then some n else none
  else none

namespace Sudoku

/-- The `for (idx, c) in value.chars().enumerate()` loop of
`TryFrom<String>`: a character in `'1'..='9'` overwrites slot `idx` with
`Value(c.to_string().parse()?)`; parse failure aborts with `Err`
(modelled `none`); any other character leaves the fresh cell in place. -/
def fillCells (board : Board) (idx : Nat) (chars : List Char) : Option Board :=
  match chars with
  | [] => some board
  | c :: rest =>
      if '1' ≤ c ∧ c ≤ '9' then
        match u8FromChars [c] with
        | some v => fillCells (board.set idx (Cell.value v)) (idx + 1) rest
        | none => none
      else fillCells board (idx + 1) rest

/-- `<Sudoku as TryFrom<String>>::try_from`: clean the input, require
length 81, then fill a fresh board from the characters. -/
def tryFrom (value : List Char) : Except Unit Board :=
  let value := cleanInput value
  if value.length ≠ 81 then Except.error ()
  else
    match fillCells new 0 value with
    | some board => Except.ok board
    | none => Except.error ()

end Sudoku

/-! ## Derived definitions used by the statements -/

/-- Refinement order on cells: `cellLE c' c` says `c'` is the same cell
after zero or more eliminations — a `Value` is unchanged, a candidate
list only shrinks, and a promotion `Possibly → Value` picks one of the
former candidates. -/
def cellLE (c' c : SudokuCell) : Prop :=
  match c', c with
  | .value v', .value v => v' = v
  | .value v', .possibly s => v' ∈ s
  | .possibly s', .possibly s => s' ⊆ s
  | .possibly _, .value _ => False

instance cellLE.decidable (c' c : SudokuCell) : Decidable (cellLE c' c) :=
  match c', c with
  | .value v', .value v => inferInstanceAs (Decidable (v' = v))
  | .value v', .possibly s => inferInstanceAs (Decidable (v' ∈ s))
  | .possibly s', .possibly s => List.decidableBAll (· ∈ s) s'
  | .possibly _, .value _ => inferInstanceAs (Decidable False)

/-- `n` successive rounds of propagation (`step` composed `n` times in
the panic-propagating `Option` monad). -/
def stepIter : Nat → Board → Option Board
  | 0, b => some b
  | n + 1, b =>
      match Sudoku.step b with
      | none => none
      | some b' => stepIter n b'

/-- Modelled from the spec: the spec's input cleaning, "discarding all
whitespace/line-break characters" — everywhere in the string, not only
at line boundaries.  Used to compare the spec's parsing rule with the
code's (`cleanInput`). -/
def specClean (s : List Char) : List Char :=
  s.filter (fun c => !isWhitespaceChar c)

/-- The 81-character puzzle of the end-to-end scenario (the program's
`BOARD` constant with the line breaks removed). -/
def puzzleChars : List Char :=
  "003020600900305001001806400008102900700000008006708200002609500800203009005010300".toList

/-- The expected fully solved digit string. -/
def solutionChars : List Char :=
  "483921657967345821251876493548132976729564138136798245372689514814253769695417382".toList

/-- The fully solved board: every cell `Value` of the corresponding
solution digit. -/
def solvedCells : Board := solutionChars.map (fun c => Cell.value (c.toNat - 48))

/-- The board parsed from the puzzle string. -/
def initialCells : Board := ((Sudoku.tryFrom puzzleChars).toOption).getD []

/-- A 81-cell board exercising `solve_constraint` on row 0: six fixed
digits, one cell `Possibly [6, 7]` that the pass will promote, and two
cells still holding `7` as a candidate. -/
def onePassBoard : Board :=
  [Cell.value 1, Cell.value 2, Cell.value 3, Cell.value 4, Cell.value 5,
   Cell.value 6, Cell.possibly [6, 7], Cell.possibly [7, 8, 9],
   Cell.possibly [7, 8, 9]] ++ List.replicate 72 (Cell.possibly SudokuCell.all)

/-- `onePassBoard` after `solve_constraint` on row 0: cell 6 became
`Value 7` during the pass, yet `7` was not eliminated from cells 7, 8
in the same call. -/
def onePassResult : Board :=
  [Cell.value 1, Cell.value 2, Cell.value 3, Cell.value 4, Cell.value 5,
   Cell.value 6, Cell.value 7, Cell.possibly [7, 8, 9],
   Cell.possibly [7, 8, 9]] ++ List.replicate 72 (Cell.possibly SudokuCell.all)

/-- An input refuting "all whitespace is discarded": 81 digit characters
with one interior space (82 characters in all, the space not at a line
boundary). -/
def interiorSpaceInput : List Char :=
  List.replicate 40 '1' ++ ' ' :: List.replicate 41 '1'


/-- Decode a digit-concatenation number into its (ascending) digit
list: `1245` decodes to `[1, 2, 4, 5]`.  Used only to write concrete
intermediate boards of the end-to-end run compactly. -/
def decodeCell (fuel n : Nat) (acc : List Nat) : List Nat :=
  match fuel with
  | 0 => acc
  | f + 1 => if n = 0 then acc else decodeCell f (n / 10) (n % 10 :: acc)

/-- A compact cell literal: `n < 10` is `Value n`; otherwise `n` is the
digit concatenation of a `Possibly` candidate list. -/
def mkCell (n : Nat) : SudokuCell :=
  if n < 10 then Cell.value n else Cell.possibly (decodeCell 9 n [])

/-- A compact board literal. -/
def natsToBoard (ns : List Nat) : Board := ns.map mkCell

/-!
The 163 intermediate boards of the end-to-end run (§8 of the spec):
`cB0` is the parsed puzzle; `cB(k+1)` is `cB(k)` after one
`solve_constraint` pass; one `step()` is 27 consecutive passes (9 rows,
9 columns, 9 boxes), so `cB27`, `cB54`, …, `cB162` are the boards after
each of the 6 rounds that `solve()` performs on this puzzle.
-/

def cB0 : Board := natsToBoard [123456789, 123456789, 3, 123456789, 2, 123456789, 6, 123456789, 123456789, 9, 123456789, 123456789, 3, 123456789, 5, 123456789, 123456789, 1, 123456789, 123456789, 1, 8, 123456789, 6, 4, 123456789, 123456789, 123456789, 123456789, 8, 1, 123456789, 2, 9, 123456789, 123456789, 7, 123456789, 123456789, 123456789, 123456789, 123456789, 123456789, 123456789, 8, 123456789, 123456789, 6, 7, 123456789, 8, 2, 123456789, 123456789, 123456789, 123456789, 2, 6, 123456789, 9, 5, 123456789, 123456789, 8, 123456789, 123456789, 2, 123456789, 3, 123456789, 123456789, 9, 123456789, 123456789, 5, 123456789, 1, 123456789, 3, 123456789, 123456789]
def cB1 : Board := natsToBoard [145789, 145789, 3, 145789, 2, 145789, 6, 145789, 145789, 9, 123456789, 123456789, 3, 123456789, 5, 123456789, 123456789, 1, 123456789, 123456789, 1, 8, 123456789, 6, 4, 123456789, 123456789, 123456789, 123456789, 8, 1, 123456789, 2, 9, 123456789, 123456789, 7, 123456789, 123456789, 123456789, 123456789, 123456789, 123456789, 123456789, 8, 123456789, 123456789, 6, 7, 123456789, 8, 2, 123456789, 123456789, 123456789, 123456789, 2, 6, 123456789, 9, 5, 123456789, 123456789, 8, 123456789, 123456789, 2, 123456789, 3, 123456789, 123456789, 9, 123456789, 123456789, 5, 123456789, 1, 123456789, 3, 123456789, 123456789]
def cB2 : Board := natsToBoard [145789, 145789, 3, 145789, 2, 145789, 6, 145789, 145789, 9, 24678, 24678, 3, 24678, 5, 24678, 24678, 1, 123456789, 123456789, 1, 8, 123456789, 6, 4, 123456789, 123456789, 123456789, 123456789, 8, 1, 123456789, 2, 9, 123456789, 123456789, 7, 123456789, 123456789, 123456789, 123456789, 123456789, 123456789, 123456789, 8, 123456789, 123456789, 6, 7, 123456789, 8, 2, 123456789, 123456789, 123456789, 123456789, 2, 6, 123456789, 9, 5, 123456789, 123456789, 8, 123456789, 123456789, 2, 123456789, 3, 123456789, 123456789, 9, 123456789, 123456789, 5, 123456789, 1, 123456789, 3, 123456789, 123456789]
def cB3 : Board := natsToBoard [145789, 145789, 3, 145789, 2, 145789, 6, 145789, 145789, 9, 24678, 24678, 3, 24678, 5, 24678, 24678, 1, 23579, 23579, 1, 8, 23579, 6, 4, 23579, 23579, 123456789, 123456789, 8, 1, 123456789, 2, 9, 123456789, 123456789, 7, 123456789, 123456789, 123456789, 123456789, 123456789, 123456789, 123456789, 8, 123456789, 123456789, 6, 7, 123456789, 8, 2, 123456789, 123456789, 123456789, 123456789, 2, 6, 123456789, 9, 5, 123456789, 123456789, 8, 123456789, 123456789, 2, 123456789, 3, 123456789, 123456789, 9, 123456789, 123456789, 5, 123456789, 1, 123456789, 3, 123456789, 123456789]
def cB4 : Board := natsToBoard [145789, 145789, 3, 145789, 2, 145789, 6, 145789, 145789, 9, 24678, 24678, 3, 24678, 5, 24678, 24678, 1, 23579, 23579, 1, 8, 23579, 6, 4, 23579, 23579, 34567, 34567, 8, 1, 34567, 2, 9, 34567, 34567, 7, 123456789, 123456789, 123456789, 123456789, 123456789, 123456789, 123456789, 8, 123456789, 123456789, 6, 7, 123456789, 8, 2, 123456789, 123456789, 123456789, 123456789, 2, 6, 123456789, 9, 5, 123456789, 123456789, 8, 123456789, 123456789, 2, 123456789, 3, 123456789, 123456789, 9, 123456789, 123456789, 5, 123456789, 1, 123456789, 3, 123456789, 123456789]
def cB5 : Board := natsToBoard [145789, 145789, 3, 145789, 2, 145789, 6, 145789, 145789, 9, 24678, 24678, 3, 24678, 5, 24678, 24678, 1, 23579, 23579, 1, 8, 23579, 6, 4, 23579, 23579, 34567, 34567, 8, 1, 34567, 2, 9, 34567, 34567, 7, 1234569, 1234569, 1234569, 1234569, 1234569, 1234569, 1234569, 8, 123456789, 123456789, 6, 7, 123456789, 8, 2, 123456789, 123456789, 123456789, 123456789, 2, 6, 123456789, 9, 5, 123456789, 123456789, 8, 123456789, 123456789, 2, 123456789, 3, 123456789, 123456789, 9, 123456789, 123456789, 5, 123456789, 1, 123456789, 3, 123456789, 123456789]
def cB6 : Board := natsToBoard [145789, 145789, 3, 145789, 2, 145789, 6, 145789, 145789, 9, 24678, 24678, 3, 24678, 5, 24678, 24678, 1, 23579, 23579, 1, 8, 23579, 6, 4, 23579, 23579, 34567, 34567, 8, 1, 34567, 2, 9, 34567, 34567, 7, 1234569, 1234569, 1234569, 1234569, 1234569, 1234569, 1234569, 8, 13459, 13459, 6, 7, 13459, 8, 2, 13459, 13459, 123456789, 123456789, 2, 6, 123456789, 9, 5, 123456789, 123456789, 8, 123456789, 123456789, 2, 123456789, 3, 123456789, 123456789, 9, 123456789, 123456789, 5, 123456789, 1, 123456789, 3, 123456789, 123456789]
def cB7 : Board := natsToBoard [145789, 145789, 3, 145789, 2, 145789, 6, 145789, 145789, 9, 24678, 24678, 3, 24678, 5, 24678, 24678, 1, 23579, 23579, 1, 8, 23579, 6, 4, 23579, 23579, 34567, 34567, 8, 1, 34567, 2, 9, 34567, 34567, 7, 1234569, 1234569, 1234569, 1234569, 1234569, 1234569, 1234569, 8, 13459, 13459, 6, 7, 13459, 8, 2, 13459, 13459, 13478, 13478, 2, 6, 13478, 9, 5, 13478, 13478, 8, 123456789, 123456789, 2, 123456789, 3, 123456789, 123456789, 9, 123456789, 123456789, 5, 123456789, 1, 123456789, 3, 123456789, 123456789]
def cB8 : Board := natsToBoard [145789, 145789, 3, 145789, 2, 145789, 6, 145789, 145789, 9, 24678, 24678, 3, 24678, 5, 24678, 24678, 1, 23579, 23579, 1, 8, 23579, 6, 4, 23579, 23579, 34567, 34567, 8, 1, 34567, 2, 9, 34567, 34567, 7, 1234569, 1234569, 1234569, 1234569, 1234569, 1234569, 1234569, 8, 13459, 13459, 6, 7, 13459, 8, 2, 13459, 13459, 13478, 13478, 2, 6, 13478, 9, 5, 13478, 13478, 8, 14567, 14567, 2, 14567, 3, 14567, 14567, 9, 123456789, 123456789, 5, 123456789, 1, 123456789, 3, 123456789, 123456789]
def cB9 : Board := natsToBoard [145789, 145789, 3, 145789, 2, 145789, 6, 145789, 145789, 9, 24678, 24678, 3, 24678, 5, 24678, 24678, 1, 23579, 23579, 1, 8, 23579, 6, 4, 23579, 23579, 34567, 34567, 8, 1, 34567, 2, 9, 34567, 34567, 7, 1234569, 1234569, 1234569, 1234569, 1234569, 1234569, 1234569, 8, 13459, 13459, 6, 7, 13459, 8, 2, 13459, 13459, 13478, 13478, 2, 6, 13478, 9, 5, 13478, 13478, 8, 14567, 14567, 2, 14567, 3, 14567, 14567, 9, 246789, 246789, 5, 246789, 1, 246789, 3, 246789, 246789]
def cB10 : Board := natsToBoard [145, 145789, 3, 145789, 2, 145789, 6, 145789, 145789, 9, 24678, 24678, 3, 24678, 5, 24678, 24678, 1, 235, 23579, 1, 8, 23579, 6, 4, 23579, 23579, 3456, 34567, 8, 1, 34567, 2, 9, 34567, 34567, 7, 1234569, 1234569, 1234569, 1234569, 1234569, 1234569, 1234569, 8, 1345, 13459, 6, 7, 13459, 8, 2, 13459, 13459, 134, 13478, 2, 6, 13478, 9, 5, 13478, 13478, 8, 14567, 14567, 2, 14567, 3, 14567, 14567, 9, 246, 246789, 5, 246789, 1, 246789, 3, 246789, 246789]
def cB11 : Board := natsToBoard [145, 145789, 3, 145789, 2, 145789, 6, 145789, 145789, 9, 24678, 24678, 3, 24678, 5, 24678, 24678, 1, 235, 23579, 1, 8, 23579, 6, 4, 23579, 23579, 3456, 34567, 8, 1, 34567, 2, 9, 34567, 34567, 7, 1234569, 1234569, 1234569, 1234569, 1234569, 1234569, 1234569, 8, 1345, 13459, 6, 7, 13459, 8, 2, 13459, 13459, 134, 13478, 2, 6, 13478, 9, 5, 13478, 13478, 8, 14567, 14567, 2, 14567, 3, 14567, 14567, 9, 246, 246789, 5, 246789, 1, 246789, 3, 246789, 246789]
def cB12 : Board := natsToBoard [145, 145789, 3, 145789, 2, 145789, 6, 145789, 145789, 9, 24678, 47, 3, 24678, 5, 24678, 24678, 1, 235, 23579, 1, 8, 23579, 6, 4, 23579, 23579, 3456, 34567, 8, 1, 34567, 2, 9, 34567, 34567, 7, 1234569, 49, 1234569, 1234569, 1234569, 1234569, 1234569, 8, 1345, 13459, 6, 7, 13459, 8, 2, 13459, 13459, 134, 13478, 2, 6, 13478, 9, 5, 13478, 13478, 8, 14567, 47, 2, 14567, 3, 14567, 14567, 9, 246, 246789, 5, 246789, 1, 246789, 3, 246789, 246789]
def cB13 : Board := natsToBoard [145, 145789, 3, 459, 2, 145789, 6, 145789, 145789, 9, 24678, 47, 3, 24678, 5, 24678, 24678, 1, 235, 23579, 1, 8, 23579, 6, 4, 23579, 23579, 3456, 34567, 8, 1, 34567, 2, 9, 34567, 34567, 7, 1234569, 49, 459, 1234569, 1234569, 1234569, 1234569, 8, 1345, 13459, 6, 7, 13459, 8, 2, 13459, 13459, 134, 13478, 2, 6, 13478, 9, 5, 13478, 13478, 8, 14567, 47, 2, 14567, 3, 14567, 14567, 9, 246, 246789, 5, 49, 1, 246789, 3, 246789, 246789]
def cB14 : Board := natsToBoard [145, 145789, 3, 459, 2, 145789, 6, 145789, 145789, 9, 24678, 47, 3, 4678, 5, 24678, 24678, 1, 235, 23579, 1, 8, 3579, 6, 4, 23579, 23579, 3456, 34567, 8, 1, 34567, 2, 9, 34567, 34567, 7, 1234569, 49, 459, 34569, 1234569, 1234569, 1234569, 8, 1345, 13459, 6, 7, 3459, 8, 2, 13459, 13459, 134, 13478, 2, 6, 3478, 9, 5, 13478, 13478, 8, 14567, 47, 2, 4567, 3, 14567, 14567, 9, 246, 246789, 5, 49, 1, 246789, 3, 246789, 246789]
def cB15 : Board := natsToBoard [145, 145789, 3, 459, 2, 147, 6, 145789, 145789, 9, 24678, 47, 3, 4678, 5, 24678, 24678, 1, 235, 23579, 1, 8, 3579, 6, 4, 23579, 23579, 3456, 34567, 8, 1, 34567, 2, 9, 34567, 34567, 7, 1234569, 49, 459, 34569, 14, 1234569, 1234569, 8, 1345, 13459, 6, 7, 3459, 8, 2, 13459, 13459, 134, 13478, 2, 6, 3478, 9, 5, 13478, 13478, 8, 14567, 47, 2, 4567, 3, 14567, 14567, 9, 246, 246789, 5, 49, 1, 47, 3, 246789, 246789]
def cB16 : Board := natsToBoard [145, 145789, 3, 459, 2, 147, 6, 145789, 145789, 9, 24678, 47, 3, 4678, 5, 78, 24678, 1, 235, 23579, 1, 8, 3579, 6, 4, 23579, 23579, 3456, 34567, 8, 1, 34567, 2, 9, 34567, 34567, 7, 1234569, 49, 459, 34569, 14, 1, 1234569, 8, 1345, 13459, 6, 7, 3459, 8, 2, 13459, 13459, 134, 13478, 2, 6, 3478, 9, 5, 13478, 13478, 8, 14567, 47, 2, 4567, 3, 17, 14567, 9, 246, 246789, 5, 49, 1, 47, 3, 246789, 246789]
def cB17 : Board := natsToBoard [145, 145789, 3, 459, 2, 147, 6, 145789, 145789, 9, 24678, 47, 3, 4678, 5, 78, 24678, 1, 235, 23579, 1, 8, 3579, 6, 4, 23579, 23579, 3456, 34567, 8, 1, 34567, 2, 9, 34567, 34567, 7, 1234569, 49, 459, 34569, 14, 1, 1234569, 8, 1345, 13459, 6, 7, 3459, 8, 2, 13459, 13459, 134, 13478, 2, 6, 3478, 9, 5, 13478, 13478, 8, 14567, 47, 2, 4567, 3, 17, 14567, 9, 246, 246789, 5, 49, 1, 47, 3, 246789, 246789]
def cB18 : Board := natsToBoard [145, 145789, 3, 459, 2, 147, 6, 145789, 457, 9, 24678, 47, 3, 4678, 5, 78, 24678, 1, 235, 23579, 1, 8, 3579, 6, 4, 23579, 2357, 3456, 34567, 8, 1, 34567, 2, 9, 34567, 34567, 7, 1234569, 49, 459, 34569, 14, 1, 1234569, 8, 1345, 13459, 6, 7, 3459, 8, 2, 13459, 345, 134, 13478, 2, 6, 3478, 9, 5, 13478, 347, 8, 14567, 47, 2, 4567, 3, 17, 14567, 9, 246, 246789, 5, 49, 1, 47, 3, 246789, 2467]
def cB19 : Board := natsToBoard [45, 4578, 3, 459, 2, 147, 6, 145789, 457, 9, 24678, 47, 3, 4678, 5, 78, 24678, 1, 25, 257, 1, 8, 3579, 6, 4, 23579, 2357, 3456, 34567, 8, 1, 34567, 2, 9, 34567, 34567, 7, 1234569, 49, 459, 34569, 14, 1, 1234569, 8, 1345, 13459, 6, 7, 3459, 8, 2, 13459, 345, 134, 13478, 2, 6, 3478, 9, 5, 13478, 347, 8, 14567, 47, 2, 4567, 3, 17, 14567, 9, 246, 246789, 5, 49, 1, 47, 3, 246789, 2467]
def cB20 : Board := natsToBoard [45, 4578, 3, 459, 2, 147, 6, 145789, 457, 9, 24678, 47, 3, 4678, 5, 78, 24678, 1, 25, 257, 1, 8, 3579, 6, 4, 23579, 2357, 345, 345, 8, 1, 34567, 2, 9, 34567, 34567, 7, 123459, 49, 459, 34569, 14, 1, 1234569, 8, 1345, 13459, 6, 7, 3459, 8, 2, 13459, 345, 134, 13478, 2, 6, 3478, 9, 5, 13478, 347, 8, 14567, 47, 2, 4567, 3, 17, 14567, 9, 246, 246789, 5, 49, 1, 47, 3, 246789, 2467]
def cB21 : Board := natsToBoard [45, 4578, 3, 459, 2, 147, 6, 145789, 457, 9, 24678, 47, 3, 4678, 5, 78, 24678, 1, 25, 257, 1, 8, 3579, 6, 4, 23579, 2357, 345, 345, 8, 1, 34567, 2, 9, 34567, 34567, 7, 123459, 49, 459, 34569, 14, 1, 1234569, 8, 1345, 13459, 6, 7, 3459, 8, 2, 13459, 345, 134, 1347, 2, 6, 3478, 9, 5, 13478, 347, 8, 1467, 47, 2, 4567, 3, 17, 14567, 9, 46, 4679, 5, 49, 1, 47, 3, 246789, 2467]
def cB22 : Board := natsToBoard [45, 4578, 3, 49, 2, 147, 6, 145789, 457, 9, 24678, 47, 3, 47, 5, 78, 24678, 1, 25, 257, 1, 8, 79, 6, 4, 23579, 2357, 345, 345, 8, 1, 34567, 2, 9, 34567, 34567, 7, 123459, 49, 459, 34569, 14, 1, 1234569, 8, 1345, 13459, 6, 7, 3459, 8, 2, 13459, 345, 134, 1347, 2, 6, 3478, 9, 5, 13478, 347, 8, 1467, 47, 2, 4567, 3, 17, 14567, 9, 46, 4679, 5, 49, 1, 47, 3, 246789, 2467]
def cB23 : Board := natsToBoard [45, 4578, 3, 49, 2, 147, 6, 145789, 457, 9, 24678, 47, 3, 47, 5, 78, 24678, 1, 25, 257, 1, 8, 79, 6, 4, 23579, 2357, 345, 345, 8, 1, 3456, 2, 9, 34567, 34567, 7, 123459, 49, 459, 34569, 4, 1, 1234569, 8, 1345, 13459, 6, 7, 3459, 8, 2, 13459, 345, 134, 1347, 2, 6, 3478, 9, 5, 13478, 347, 8, 1467, 47, 2, 4567, 3, 17, 14567, 9, 46, 4679, 5, 49, 1, 47, 3, 246789, 2467]
def cB24 : Board := natsToBoard [45, 4578, 3, 49, 2, 147, 6, 145789, 457, 9, 24678, 47, 3, 47, 5, 78, 24678, 1, 25, 257, 1, 8, 79, 6, 4, 23579, 2357, 345, 345, 8, 1, 3456, 2, 9, 34567, 34567, 7, 123459, 49, 459, 34569, 4, 1, 1234569, 8, 1345, 13459, 6, 7, 3459, 8, 2, 13459, 345, 134, 1347, 2, 6, 478, 9, 5, 13478, 347, 8, 1467, 47, 2, 457, 3, 17, 14567, 9, 46, 4679, 5, 4, 1, 47, 3, 246789, 2467]
def cB25 : Board := natsToBoard [45, 4578, 3, 49, 2, 147, 6, 5789, 57, 9, 24678, 47, 3, 47, 5, 78, 278, 1, 25, 257, 1, 8, 79, 6, 4, 23579, 2357, 345, 345, 8, 1, 3456, 2, 9, 34567, 34567, 7, 123459, 49, 459, 34569, 4, 1, 1234569, 8, 1345, 13459, 6, 7, 3459, 8, 2, 13459, 345, 134, 1347, 2, 6, 478, 9, 5, 13478, 347, 8, 1467, 47, 2, 457, 3, 17, 14567, 9, 46, 4679, 5, 4, 1, 47, 3, 246789, 2467]
def cB26 : Board := natsToBoard [45, 4578, 3, 49, 2, 147, 6, 5789, 57, 9, 24678, 47, 3, 47, 5, 78, 278, 1, 25, 257, 1, 8, 79, 6, 4, 23579, 2357, 345, 345, 8, 1, 3456, 2, 9, 34567, 34567, 7, 123459, 49, 459, 34569, 4, 1, 3456, 8, 1345, 13459, 6, 7, 3459, 8, 2, 345, 345, 134, 1347, 2, 6, 478, 9, 5, 13478, 347, 8, 1467, 47, 2, 457, 3, 17, 14567, 9, 46, 4679, 5, 4, 1, 47, 3, 246789, 2467]
def cB27 : Board := natsToBoard [45, 4578, 3, 49, 2, 147, 6, 5789, 57, 9, 24678, 47, 3, 47, 5, 78, 278, 1, 25, 257, 1, 8, 79, 6, 4, 23579, 2357, 345, 345, 8, 1, 3456, 2, 9, 34567, 34567, 7, 123459, 49, 459, 34569, 4, 1, 3456, 8, 1345, 13459, 6, 7, 3459, 8, 2, 345, 345, 134, 1347, 2, 6, 478, 9, 5, 1478, 47, 8, 1467, 47, 2, 457, 3, 17, 1467, 9, 46, 4679, 5, 4, 1, 47, 3, 24678, 2467]
def cB28 : Board := natsToBoard [45, 4578, 3, 49, 2, 147, 6, 5789, 57, 9, 24678, 47, 3, 47, 5, 78, 278, 1, 25, 257, 1, 8, 79, 6, 4, 23579, 2357, 345, 345, 8, 1, 3456, 2, 9, 34567, 34567, 7, 123459, 49, 459, 34569, 4, 1, 3456, 8, 1345, 13459, 6, 7, 3459, 8, 2, 345, 345, 134, 1347, 2, 6, 478, 9, 5, 1478, 47, 8, 1467, 47, 2, 457, 3, 17, 1467, 9, 46, 4679, 5, 4, 1, 47, 3, 24678, 2467]
def cB29 : Board := natsToBoard [45, 4578, 3, 49, 2, 147, 6, 5789, 57, 9, 24678, 47, 3, 47, 5, 78, 278, 1, 25, 257, 1, 8, 79, 6, 4, 23579, 2357, 345, 345, 8, 1, 3456, 2, 9, 34567, 34567, 7, 123459, 49, 459, 34569, 4, 1, 3456, 8, 1345, 13459, 6, 7, 3459, 8, 2, 345, 345, 134, 1347, 2, 6, 478, 9, 5, 1478, 47, 8, 1467, 47, 2, 457, 3, 17, 1467, 9, 46, 4679, 5, 4, 1, 47, 3, 24678, 2467]
def cB30 : Board := natsToBoard [45, 4578, 3, 49, 2, 147, 6, 5789, 57, 9, 24678, 47, 3, 47, 5, 78, 278, 1, 25, 257, 1, 8, 79, 6, 4, 23579, 2357, 345, 345, 8, 1, 3456, 2, 9, 34567, 34567, 7, 123459, 49, 459, 34569, 4, 1, 3456, 8, 1345, 13459, 6, 7, 3459, 8, 2, 345, 345, 134, 1347, 2, 6, 478, 9, 5, 1478, 47, 8, 1467, 47, 2, 457, 3, 17, 1467, 9, 46, 4679, 5, 4, 1, 47, 3, 24678, 2467]
def cB31 : Board := natsToBoard [45, 4578, 3, 49, 2, 147, 6, 5789, 57, 9, 24678, 47, 3, 47, 5, 78, 278, 1, 25, 257, 1, 8, 79, 6, 4, 23579, 2357, 345, 345, 8, 1, 3456, 2, 9, 34567, 34567, 7, 123459, 49, 459, 34569, 4, 1, 3456, 8, 1345, 13459, 6, 7, 3459, 8, 2, 345, 345, 134, 1347, 2, 6, 478, 9, 5, 1478, 47, 8, 1467, 47, 2, 457, 3, 17, 1467, 9, 46, 4679, 5, 4, 1, 47, 3, 24678, 2467]
def cB32 : Board := natsToBoard [45, 4578, 3, 49, 2, 147, 6, 5789, 57, 9, 24678, 47, 3, 47, 5, 78, 278, 1, 25, 257, 1, 8, 79, 6, 4, 23579, 2357, 345, 345, 8, 1, 3456, 2, 9, 34567, 34567, 7, 2359, 9, 59, 3569, 4, 1, 356, 8, 1345, 13459, 6, 7, 3459, 8, 2, 345, 345, 134, 1347, 2, 6, 478, 9, 5, 1478, 47, 8, 1467, 47, 2, 457, 3, 17, 1467, 9, 46, 4679, 5, 4, 1, 47, 3, 24678, 2467]
def cB33 : Board := natsToBoard [45, 4578, 3, 49, 2, 147, 6, 5789, 57, 9, 24678, 47, 3, 47, 5, 78, 278, 1, 25, 257, 1, 8, 79, 6, 4, 23579, 2357, 345, 345, 8, 1, 3456, 2, 9, 34567, 34567, 7, 2359, 9, 59, 3569, 4, 1, 356, 8, 1345, 13459, 6, 7, 3459, 8, 2, 345, 345, 134, 1347, 2, 6, 478, 9, 5, 1478, 47, 8, 1467, 47, 2, 457, 3, 17, 1467, 9, 46, 4679, 5, 4, 1, 47, 3, 24678, 2467]
def cB34 : Board := natsToBoard [45, 4578, 3, 49, 2, 147, 6, 5789, 57, 9, 24678, 47, 3, 47, 5, 78, 278, 1, 25, 257, 1, 8, 79, 6, 4, 23579, 2357, 345, 345, 8, 1, 3456, 2, 9, 34567, 34567, 7, 2359, 9, 59, 3569, 4, 1, 356, 8, 1345, 13459, 6, 7, 3459, 8, 2, 345, 345, 134, 1347, 2, 6, 478, 9, 5, 1478, 47, 8, 1467, 47, 2, 457, 3, 17, 1467, 9, 46, 4679, 5, 4, 1, 47, 3, 24678, 2467]
def cB35 : Board := natsToBoard [45, 4578, 3, 49, 2, 147, 6, 5789, 57, 9, 24678, 47, 3, 47, 5, 78, 278, 1, 25, 257, 1, 8, 79, 6, 4, 23579, 2357, 345, 345, 8, 1, 3456, 2, 9, 34567, 34567, 7, 2359, 9, 59, 3569, 4, 1, 356, 8, 1345, 13459, 6, 7, 3459, 8, 2, 345, 345, 134, 1347, 2, 6, 478, 9, 5, 1478, 47, 8, 1467, 47, 2, 457, 3, 17, 1467, 9, 46, 4679, 5, 4, 1, 47, 3, 24678, 2467]
def cB36 : Board := natsToBoard [45, 4578, 3, 49, 2, 147, 6, 5789, 57, 9, 24678, 47, 3, 47, 5, 78, 278, 1, 25, 257, 1, 8, 79, 6, 4, 23579, 2357, 345, 345, 8, 1, 3456, 2, 9, 34567, 34567, 7, 2359, 9, 59, 3569, 4, 1, 356, 8, 1345, 13459, 6, 7, 3459, 8, 2, 345, 345, 134, 1347, 2, 6, 478, 9, 5, 1478, 47, 8, 1467, 47, 2, 457, 3, 17, 1467, 9, 6, 679, 5, 4, 1, 7, 3, 2678, 267]
def cB37 : Board := natsToBoard [45, 4578, 3, 49, 2, 147, 6, 5789, 57, 9, 24678, 47, 3, 47, 5, 78, 278, 1, 25, 257, 1, 8, 79, 6, 4, 23579, 2357, 345, 345, 8, 1, 3456, 2, 9, 34567, 34567, 7, 2359, 9, 59, 3569, 4, 1, 356, 8, 1345, 13459, 6, 7, 3459, 8, 2, 345, 345, 134, 1347, 2, 6, 478, 9, 5, 1478, 47, 8, 1467, 47, 2, 457, 3, 17, 1467, 9, 6, 679, 5, 4, 1, 7, 3, 2678, 267]
def cB38 : Board := natsToBoard [45, 4578, 3, 49, 2, 147, 6, 5789, 57, 9, 24678, 47, 3, 47, 5, 78, 278, 1, 25, 257, 1, 8, 79, 6, 4, 23579, 2357, 345, 345, 8, 1, 3456, 2, 9, 34567, 34567, 7, 2359, 9, 59, 3569, 4, 1, 356, 8, 1345, 13459, 6, 7, 3459, 8, 2, 345, 345, 134, 1347, 2, 6, 478, 9, 5, 1478, 47, 8, 1467, 47, 2, 457, 3, 17, 1467, 9, 6, 679, 5, 4, 1, 7, 3, 2678, 267]
def cB39 : Board := natsToBoard [45, 4578, 3, 49, 2, 147, 6, 5789, 57, 9, 24678, 47, 3, 47, 5, 78, 278, 1, 25, 257, 1, 8, 79, 6, 4, 23579, 2357, 345, 345, 8, 1, 3456, 2, 9, 34567, 34567, 7, 2359, 9, 59, 3569, 4, 1, 356, 8, 1345, 13459, 6, 7, 3459, 8, 2, 345, 345, 134, 1347, 2, 6, 478, 9, 5, 1478, 47, 8, 1467, 47, 2, 457, 3, 17, 1467, 9, 6, 679, 5, 4, 1, 7, 3, 2678, 267]
def cB40 : Board := natsToBoard [45, 4578, 3, 9, 2, 147, 6, 5789, 57, 9, 24678, 47, 3, 47, 5, 78, 278, 1, 25, 257, 1, 8, 79, 6, 4, 23579, 2357, 345, 345, 8, 1, 3456, 2, 9, 34567, 34567, 7, 2359, 9, 59, 3569, 4, 1, 356, 8, 1345, 13459, 6, 7, 3459, 8, 2, 345, 345, 134, 1347, 2, 6, 478, 9, 5, 1478, 47, 8, 1467, 47, 2, 457, 3, 17, 1467, 9, 6, 679, 5, 4, 1, 7, 3, 2678, 267]
def cB41 : Board := natsToBoard [45, 4578, 3, 9, 2, 147, 6, 5789, 57, 9, 24678, 47, 3, 47, 5, 78, 278, 1, 25, 257, 1, 8, 79, 6, 4, 23579, 2357, 345, 345, 8, 1, 3456, 2, 9, 34567, 34567, 7, 2359, 9, 59, 3569, 4, 1, 356, 8, 1345, 13459, 6, 7, 3459, 8, 2, 345, 345, 134, 1347, 2, 6, 478, 9, 5, 1478, 47, 8, 1467, 47, 2, 457, 3, 17, 1467, 9, 6, 679, 5, 4, 1, 7, 3, 2678, 267]
def cB42 : Board := natsToBoard [45, 4578, 3, 9, 2, 1, 6, 5789, 57, 9, 24678, 47, 3, 47, 5, 78, 278, 1, 25, 257, 1, 8, 79, 6, 4, 23579, 2357, 345, 345, 8, 1, 3456, 2, 9, 34567, 34567, 7, 2359, 9, 59, 3569, 4, 1, 356, 8, 1345, 13459, 6, 7, 3459, 8, 2, 345, 345, 134, 1347, 2, 6, 478, 9, 5, 1478, 47, 8, 1467, 47, 2, 457, 3, 17, 1467, 9, 6, 679, 5, 4, 1, 7, 3, 2678, 267]
def cB43 : Board := natsToBoard [45, 4578, 3, 9, 2, 1, 6, 5789, 57, 9, 24678, 47, 3, 47, 5, 78, 278, 1, 25, 257, 1, 8, 79, 6, 4, 23579, 2357, 345, 345, 8, 1, 3456, 2, 9, 34567, 34567, 7, 2359, 9, 59, 3569, 4, 1, 356, 8, 1345, 13459, 6, 7, 3459, 8, 2, 345, 345, 134, 1347, 2, 6, 478, 9, 5, 1478, 47, 8, 1467, 47, 2, 457, 3, 7, 1467, 9, 6, 679, 5, 4, 1, 7, 3, 2678, 267]
def cB44 : Board := natsToBoard [45, 4578, 3, 9, 2, 1, 6, 5789, 57, 9, 24678, 47, 3, 47, 5, 78, 278, 1, 25, 257, 1, 8, 79, 6, 4, 23579, 2357, 345, 345, 8, 1, 3456, 2, 9, 34567, 34567, 7, 2359, 9, 59, 3569, 4, 1, 356, 8, 1345, 13459, 6, 7, 3459, 8, 2, 345, 345, 134, 1347, 2, 6, 478, 9, 5, 1478, 47, 8, 1467, 47, 2, 457, 3, 7, 1467, 9, 6, 679, 5, 4, 1, 7, 3, 2678, 267]
def cB45 : Board := natsToBoard [45, 4578, 3, 9, 2, 1, 6, 5789, 57, 9, 24678, 47, 3, 47, 5, 78, 278, 1, 25, 257, 1, 8, 79, 6, 4, 23579, 2357, 345, 345, 8, 1, 3456, 2, 9, 34567, 34567, 7, 2359, 9, 59, 3569, 4, 1, 356, 8, 1345, 13459, 6, 7, 3459, 8, 2, 345, 345, 134, 1347, 2, 6, 478, 9, 5, 1478, 47, 8, 1467, 47, 2, 457, 3, 7, 1467, 9, 6, 679, 5, 4, 1, 7, 3, 2678, 267]
def cB46 : Board := natsToBoard [45, 4578, 3, 9, 2, 1, 6, 5789, 57, 9, 24678, 47, 3, 47, 5, 78, 278, 1, 25, 257, 1, 8, 79, 6, 4, 23579, 2357, 345, 345, 8, 1, 3456, 2, 9, 34567, 34567, 7, 2359, 9, 59, 3569, 4, 1, 356, 8, 1345, 13459, 6, 7, 3459, 8, 2, 345, 345, 134, 1347, 2, 6, 478, 9, 5, 1478, 47, 8, 1467, 47, 2, 457, 3, 7, 1467, 9, 6, 679, 5, 4, 1, 7, 3, 2678, 267]
def cB47 : Board := natsToBoard [45, 4578, 3, 9, 2, 1, 6, 5789, 57, 9, 24678, 47, 3, 47, 5, 78, 278, 1, 25, 257, 1, 8, 79, 6, 4, 23579, 2357, 345, 345, 8, 1, 3456, 2, 9, 34567, 34567, 7, 235, 9, 59, 3569, 4, 1, 356, 8, 1345, 1345, 6, 7, 3459, 8, 2, 345, 345, 134, 1347, 2, 6, 478, 9, 5, 1478, 47, 8, 1467, 47, 2, 457, 3, 7, 1467, 9, 6, 679, 5, 4, 1, 7, 3, 2678, 267]
def cB48 : Board := natsToBoard [45, 4578, 3, 9, 2, 1, 6, 5789, 57, 9, 24678, 47, 3, 47, 5, 78, 278, 1, 25, 257, 1, 8, 79, 6, 4, 23579, 2357, 345, 345, 8, 1, 3456, 2, 9, 34567, 34567, 7, 235, 9, 59, 3569, 4, 1, 356, 8, 1345, 1345, 6, 7, 3459, 8, 2, 345, 345, 134, 1347, 2, 6, 478, 9, 5, 1478, 47, 8, 147, 47, 2, 457, 3, 7, 1467, 9, 6, 79, 5, 4, 1, 7, 3, 2678, 267]
def cB49 : Board := natsToBoard [45, 4578, 3, 9, 2, 1, 6, 5789, 57, 9, 24678, 47, 3, 47, 5, 78, 278, 1, 25, 257, 1, 8, 7, 6, 4, 23579, 2357, 345, 345, 8, 1, 3456, 2, 9, 34567, 34567, 7, 235, 9, 59, 3569, 4, 1, 356, 8, 1345, 1345, 6, 7, 3459, 8, 2, 345, 345, 134, 1347, 2, 6, 478, 9, 5, 1478, 47, 8, 147, 47, 2, 457, 3, 7, 1467, 9, 6, 79, 5, 4, 1, 7, 3, 2678, 267]
def cB50 : Board := natsToBoard [45, 4578, 3, 9, 2, 1, 6, 5789, 57, 9, 24678, 47, 3, 47, 5, 78, 278, 1, 25, 257, 1, 8, 7, 6, 4, 23579, 2357, 345, 345, 8, 1, 356, 2, 9, 34567, 34567, 7, 235, 9, 59, 3569, 4, 1, 356, 8, 1345, 1345, 6, 7, 359, 8, 2, 345, 345, 134, 1347, 2, 6, 478, 9, 5, 1478, 47, 8, 147, 47, 2, 457, 3, 7, 1467, 9, 6, 79, 5, 4, 1, 7, 3, 2678, 267]
def cB51 : Board := natsToBoard [45, 4578, 3, 9, 2, 1, 6, 5789, 57, 9, 24678, 47, 3, 47, 5, 78, 278, 1, 25, 257, 1, 8, 7, 6, 4, 23579, 2357, 345, 345, 8, 1, 356, 2, 9, 34567, 34567, 7, 235, 9, 59, 3569, 4, 1, 356, 8, 1345, 1345, 6, 7, 359, 8, 2, 345, 345, 134, 1347, 2, 6, 8, 9, 5, 1478, 47, 8, 147, 47, 2, 5, 3, 7, 1467, 9, 6, 79, 5, 4, 1, 7, 3, 2678, 267]
def cB52 : Board := natsToBoard [45, 4578, 3, 9, 2, 1, 6, 5789, 57, 9, 24678, 47, 3, 47, 5, 78, 278, 1, 25, 257, 1, 8, 7, 6, 4, 23579, 2357, 345, 345, 8, 1, 356, 2, 9, 34567, 34567, 7, 235, 9, 59, 3569, 4, 1, 356, 8, 1345, 1345, 6, 7, 359, 8, 2, 345, 345, 134, 1347, 2, 6, 8, 9, 5, 1478, 47, 8, 147, 47, 2, 5, 3, 7, 1467, 9, 6, 79, 5, 4, 1, 7, 3, 2678, 267]
def cB53 : Board := natsToBoard [45, 4578, 3, 9, 2, 1, 6, 5789, 57, 9, 24678, 47, 3, 47, 5, 78, 278, 1, 25, 257, 1, 8, 7, 6, 4, 23579, 2357, 345, 345, 8, 1, 356, 2, 9, 34567, 34567, 7, 235, 9, 59, 3569, 4, 1, 356, 8, 1345, 1345, 6, 7, 359, 8, 2, 345, 345, 134, 1347, 2, 6, 8, 9, 5, 1478, 47, 8, 147, 47, 2, 5, 3, 7, 1467, 9, 6, 79, 5, 4, 1, 7, 3, 2678, 267]
def cB54 : Board := natsToBoard [45, 4578, 3, 9, 2, 1, 6, 5789, 57, 9, 24678, 47, 3, 47, 5, 78, 278, 1, 25, 257, 1, 8, 7, 6, 4, 23579, 2357, 345, 345, 8, 1, 356, 2, 9, 34567, 34567, 7, 235, 9, 59, 3569, 4, 1, 356, 8, 1345, 1345, 6, 7, 359, 8, 2, 345, 345, 134, 1347, 2, 6, 8, 9, 5, 148, 4, 8, 147, 47, 2, 5, 3, 7, 146, 9, 6, 79, 5, 4, 1, 7, 3, 268, 26]
def cB55 : Board := natsToBoard [45, 4578, 3, 9, 2, 1, 6, 578, 57, 9, 24678, 47, 3, 47, 5, 78, 278, 1, 25, 257, 1, 8, 7, 6, 4, 23579, 2357, 345, 345, 8, 1, 356, 2, 9, 34567, 34567, 7, 235, 9, 59, 3569, 4, 1, 356, 8, 1345, 1345, 6, 7, 359, 8, 2, 345, 345, 134, 1347, 2, 6, 8, 9, 5, 148, 4, 8, 147, 47, 2, 5, 3, 7, 146, 9, 6, 79, 5, 4, 1, 7, 3, 268, 26]
def cB56 : Board := natsToBoard [45, 4578, 3, 9, 2, 1, 6, 578, 57, 9, 24678, 47, 3, 47, 5, 78, 278, 1, 25, 257, 1, 8, 7, 6, 4, 23579, 2357, 345, 345, 8, 1, 356, 2, 9, 34567, 34567, 7, 235, 9, 59, 3569, 4, 1, 356, 8, 1345, 1345, 6, 7, 359, 8, 2, 345, 345, 134, 1347, 2, 6, 8, 9, 5, 148, 4, 8, 147, 47, 2, 5, 3, 7, 146, 9, 6, 79, 5, 4, 1, 7, 3, 268, 26]
def cB57 : Board := natsToBoard [45, 4578, 3, 9, 2, 1, 6, 578, 57, 9, 24678, 47, 3, 47, 5, 78, 278, 1, 25, 25, 1, 8, 7, 6, 4, 2359, 235, 345, 345, 8, 1, 356, 2, 9, 34567, 34567, 7, 235, 9, 59, 3569, 4, 1, 356, 8, 1345, 1345, 6, 7, 359, 8, 2, 345, 345, 134, 1347, 2, 6, 8, 9, 5, 148, 4, 8, 147, 47, 2, 5, 3, 7, 146, 9, 6, 79, 5, 4, 1, 7, 3, 268, 26]
def cB58 : Board := natsToBoard [45, 4578, 3, 9, 2, 1, 6, 578, 57, 9, 24678, 47, 3, 47, 5, 78, 278, 1, 25, 25, 1, 8, 7, 6, 4, 2359, 235, 345, 345, 8, 1, 356, 2, 9, 34567, 34567, 7, 235, 9, 59, 3569, 4, 1, 356, 8, 1345, 1345, 6, 7, 359, 8, 2, 345, 345, 134, 1347, 2, 6, 8, 9, 5, 148, 4, 8, 147, 47, 2, 5, 3, 7, 146, 9, 6, 79, 5, 4, 1, 7, 3, 268, 26]
def cB59 : Board := natsToBoard [45, 4578, 3, 9, 2, 1, 6, 578, 57, 9, 24678, 47, 3, 47, 5, 78, 278, 1, 25, 25, 1, 8, 7, 6, 4, 2359, 235, 345, 345, 8, 1, 356, 2, 9, 34567, 34567, 7, 235, 9, 5, 356, 4, 1, 356, 8, 1345, 1345, 6, 7, 359, 8, 2, 345, 345, 134, 1347, 2, 6, 8, 9, 5, 148, 4, 8, 147, 47, 2, 5, 3, 7, 146, 9, 6, 79, 5, 4, 1, 7, 3, 268, 26]
def cB60 : Board := natsToBoard [45, 4578, 3, 9, 2, 1, 6, 578, 57, 9, 24678, 47, 3, 47, 5, 78, 278, 1, 25, 25, 1, 8, 7, 6, 4, 2359, 235, 345, 345, 8, 1, 356, 2, 9, 34567, 34567, 7, 235, 9, 5, 356, 4, 1, 356, 8, 1345, 1345, 6, 7, 359, 8, 2, 345, 345, 134, 1347, 2, 6, 8, 9, 5, 148, 4, 8, 147, 47, 2, 5, 3, 7, 146, 9, 6, 79, 5, 4, 1, 7, 3, 268, 26]
def cB61 : Board := natsToBoard [45, 4578, 3, 9, 2, 1, 6, 578, 57, 9, 24678, 47, 3, 47, 5, 78, 278, 1, 25, 25, 1, 8, 7, 6, 4, 2359, 235, 345, 345, 8, 1, 356, 2, 9, 34567, 34567, 7, 235, 9, 5, 356, 4, 1, 356, 8, 1345, 1345, 6, 7, 359, 8, 2, 345, 345, 13, 137, 2, 6, 8, 9, 5, 1, 4, 8, 147, 47, 2, 5, 3, 7, 146, 9, 6, 79, 5, 4, 1, 7, 3, 268, 26]
def cB62 : Board := natsToBoard [45, 4578, 3, 9, 2, 1, 6, 578, 57, 9, 24678, 47, 3, 47, 5, 78, 278, 1, 25, 25, 1, 8, 7, 6, 4, 2359, 235, 345, 345, 8, 1, 356, 2, 9, 34567, 34567, 7, 235, 9, 5, 356, 4, 1, 356, 8, 1345, 1345, 6, 7, 359, 8, 2, 345, 345, 13, 137, 2, 6, 8, 9, 5, 1, 4, 8, 14, 4, 2, 5, 3, 7, 146, 9, 6, 79, 5, 4, 1, 7, 3, 268, 26]
def cB63 : Board := natsToBoard [45, 4578, 3, 9, 2, 1, 6, 578, 57, 9, 24678, 47, 3, 47, 5, 78, 278, 1, 25, 25, 1, 8, 7, 6, 4, 2359, 235, 345, 345, 8, 1, 356, 2, 9, 34567, 34567, 7, 235, 9, 5, 356, 4, 1, 356, 8, 1345, 1345, 6, 7, 359, 8, 2, 345, 345, 13, 137, 2, 6, 8, 9, 5, 1, 4, 8, 14, 4, 2, 5, 3, 7, 146, 9, 6, 9, 5, 4, 1, 7, 3, 28, 2]
def cB64 : Board := natsToBoard [45, 4578, 3, 9, 2, 1, 6, 578, 57, 9, 24678, 47, 3, 47, 5, 78, 278, 1, 25, 25, 1, 8, 7, 6, 4, 2359, 235, 345, 345, 8, 1, 356, 2, 9, 34567, 34567, 7, 235, 9, 5, 356, 4, 1, 356, 8, 1345, 1345, 6, 7, 359, 8, 2, 345, 345, 13, 137, 2, 6, 8, 9, 5, 1, 4, 8, 14, 4, 2, 5, 3, 7, 146, 9, 6, 9, 5, 4, 1, 7, 3, 28, 2]
def cB65 : Board := natsToBoard [45, 4578, 3, 9, 2, 1, 6, 578, 57, 9, 24678, 47, 3, 47, 5, 78, 278, 1, 25, 25, 1, 8, 7, 6, 4, 2359, 235, 345, 345, 8, 1, 356, 2, 9, 34567, 34567, 7, 235, 9, 5, 356, 4, 1, 356, 8, 1345, 1345, 6, 7, 359, 8, 2, 345, 345, 13, 137, 2, 6, 8, 9, 5, 1, 4, 8, 14, 4, 2, 5, 3, 7, 146, 9, 6, 9, 5, 4, 1, 7, 3, 28, 2]
def cB66 : Board := natsToBoard [45, 4578, 3, 9, 2, 1, 6, 578, 57, 9, 24678, 7, 3, 47, 5, 78, 278, 1, 25, 25, 1, 8, 7, 6, 4, 2359, 235, 345, 345, 8, 1, 356, 2, 9, 34567, 34567, 7, 235, 9, 5, 356, 4, 1, 356, 8, 1345, 1345, 6, 7, 359, 8, 2, 345, 345, 13, 137, 2, 6, 8, 9, 5, 1, 4, 8, 14, 4, 2, 5, 3, 7, 146, 9, 6, 9, 5, 4, 1, 7, 3, 28, 2]
def cB67 : Board := natsToBoard [45, 4578, 3, 9, 2, 1, 6, 578, 57, 9, 24678, 7, 3, 47, 5, 78, 278, 1, 25, 25, 1, 8, 7, 6, 4, 2359, 235, 345, 345, 8, 1, 356, 2, 9, 34567, 34567, 7, 235, 9, 5, 356, 4, 1, 356, 8, 1345, 1345, 6, 7, 359, 8, 2, 345, 345, 13, 137, 2, 6, 8, 9, 5, 1, 4, 8, 14, 4, 2, 5, 3, 7, 146, 9, 6, 9, 5, 4, 1, 7, 3, 28, 2]
def cB68 : Board := natsToBoard [45, 4578, 3, 9, 2, 1, 6, 578, 57, 9, 24678, 7, 3, 4, 5, 78, 278, 1, 25, 25, 1, 8, 7, 6, 4, 2359, 235, 345, 345, 8, 1, 36, 2, 9, 34567, 34567, 7, 235, 9, 5, 36, 4, 1, 356, 8, 1345, 1345, 6, 7, 39, 8, 2, 345, 345, 13, 137, 2, 6, 8, 9, 5, 1, 4, 8, 14, 4, 2, 5, 3, 7, 146, 9, 6, 9, 5, 4, 1, 7, 3, 28, 2]
def cB69 : Board := natsToBoard [45, 4578, 3, 9, 2, 1, 6, 578, 57, 9, 24678, 7, 3, 4, 5, 78, 278, 1, 25, 25, 1, 8, 7, 6, 4, 2359, 235, 345, 345, 8, 1, 36, 2, 9, 34567, 34567, 7, 235, 9, 5, 36, 4, 1, 356, 8, 1345, 1345, 6, 7, 39, 8, 2, 345, 345, 13, 137, 2, 6, 8, 9, 5, 1, 4, 8, 14, 4, 2, 5, 3, 7, 146, 9, 6, 9, 5, 4, 1, 7, 3, 28, 2]
def cB70 : Board := natsToBoard [45, 4578, 3, 9, 2, 1, 6, 578, 57, 9, 24678, 7, 3, 4, 5, 8, 278, 1, 25, 25, 1, 8, 7, 6, 4, 2359, 235, 345, 345, 8, 1, 36, 2, 9, 34567, 34567, 7, 235, 9, 5, 36, 4, 1, 356, 8, 1345, 1345, 6, 7, 39, 8, 2, 345, 345, 13, 137, 2, 6, 8, 9, 5, 1, 4, 8, 14, 4, 2, 5, 3, 7, 146, 9, 6, 9, 5, 4, 1, 7, 3, 28, 2]
def cB71 : Board := natsToBoard [45, 4578, 3, 9, 2, 1, 6, 578, 57, 9, 24678, 7, 3, 4, 5, 8, 278, 1, 25, 25, 1, 8, 7, 6, 4, 2359, 235, 345, 345, 8, 1, 36, 2, 9, 34567, 34567, 7, 235, 9, 5, 36, 4, 1, 356, 8, 1345, 1345, 6, 7, 39, 8, 2, 345, 345, 13, 137, 2, 6, 8, 9, 5, 1, 4, 8, 14, 4, 2, 5, 3, 7, 46, 9, 6, 9, 5, 4, 1, 7, 3, 28, 2]
def cB72 : Board := natsToBoard [45, 4578, 3, 9, 2, 1, 6, 578, 57, 9, 24678, 7, 3, 4, 5, 8, 278, 1, 25, 25, 1, 8, 7, 6, 4, 2359, 35, 345, 345, 8, 1, 36, 2, 9, 34567, 3567, 7, 235, 9, 5, 36, 4, 1, 356, 8, 1345, 1345, 6, 7, 39, 8, 2, 345, 35, 13, 137, 2, 6, 8, 9, 5, 1, 4, 8, 14, 4, 2, 5, 3, 7, 46, 9, 6, 9, 5, 4, 1, 7, 3, 28, 2]
def cB73 : Board := natsToBoard [45, 458, 3, 9, 2, 1, 6, 578, 57, 9, 2468, 7, 3, 4, 5, 8, 278, 1, 25, 25, 1, 8, 7, 6, 4, 2359, 35, 345, 345, 8, 1, 36, 2, 9, 34567, 3567, 7, 235, 9, 5, 36, 4, 1, 356, 8, 1345, 1345, 6, 7, 39, 8, 2, 345, 35, 13, 137, 2, 6, 8, 9, 5, 1, 4, 8, 14, 4, 2, 5, 3, 7, 46, 9, 6, 9, 5, 4, 1, 7, 3, 28, 2]
def cB74 : Board := natsToBoard [45, 458, 3, 9, 2, 1, 6, 578, 57, 9, 2468, 7, 3, 4, 5, 8, 278, 1, 25, 25, 1, 8, 7, 6, 4, 2359, 35, 345, 345, 8, 1, 36, 2, 9, 34567, 3567, 7, 235, 9, 5, 36, 4, 1, 356, 8, 1345, 1345, 6, 7, 39, 8, 2, 345, 35, 13, 137, 2, 6, 8, 9, 5, 1, 4, 8, 14, 4, 2, 5, 3, 7, 46, 9, 6, 9, 5, 4, 1, 7, 3, 28, 2]
def cB75 : Board := natsToBoard [45, 458, 3, 9, 2, 1, 6, 578, 57, 9, 2468, 7, 3, 4, 5, 8, 278, 1, 25, 25, 1, 8, 7, 6, 4, 2359, 35, 345, 345, 8, 1, 36, 2, 9, 34567, 3567, 7, 235, 9, 5, 36, 4, 1, 356, 8, 1345, 1345, 6, 7, 39, 8, 2, 345, 35, 13, 137, 2, 6, 8, 9, 5, 1, 4, 8, 1, 4, 2, 5, 3, 7, 46, 9, 6, 9, 5, 4, 1, 7, 3, 28, 2]
def cB76 : Board := natsToBoard [45, 458, 3, 9, 2, 1, 6, 578, 57, 9, 2468, 7, 3, 4, 5, 8, 278, 1, 25, 25, 1, 8, 7, 6, 4, 2359, 35, 345, 345, 8, 1, 36, 2, 9, 34567, 3567, 7, 235, 9, 5, 36, 4, 1, 356, 8, 1345, 1345, 6, 7, 39, 8, 2, 345, 35, 13, 137, 2, 6, 8, 9, 5, 1, 4, 8, 1, 4, 2, 5, 3, 7, 46, 9, 6, 9, 5, 4, 1, 7, 3, 28, 2]
def cB77 : Board := natsToBoard [45, 458, 3, 9, 2, 1, 6, 578, 57, 9, 2468, 7, 3, 4, 5, 8, 278, 1, 25, 25, 1, 8, 7, 6, 4, 2359, 35, 345, 345, 8, 1, 36, 2, 9, 34567, 3567, 7, 235, 9, 5, 36, 4, 1, 356, 8, 1345, 1345, 6, 7, 39, 8, 2, 345, 35, 13, 137, 2, 6, 8, 9, 5, 1, 4, 8, 1, 4, 2, 5, 3, 7, 46, 9, 6, 9, 5, 4, 1, 7, 3, 28, 2]
def cB78 : Board := natsToBoard [45, 458, 3, 9, 2, 1, 6, 578, 57, 9, 2468, 7, 3, 4, 5, 8, 278, 1, 25, 25, 1, 8, 7, 6, 4, 2359, 35, 345, 345, 8, 1, 36, 2, 9, 34567, 3567, 7, 235, 9, 5, 36, 4, 1, 356, 8, 1345, 1345, 6, 7, 39, 8, 2, 345, 35, 13, 137, 2, 6, 8, 9, 5, 1, 4, 8, 1, 4, 2, 5, 3, 7, 46, 9, 6, 9, 5, 4, 1, 7, 3, 28, 2]
def cB79 : Board := natsToBoard [45, 458, 3, 9, 2, 1, 6, 57, 57, 9, 2468, 7, 3, 4, 5, 8, 27, 1, 25, 25, 1, 8, 7, 6, 4, 2359, 35, 345, 345, 8, 1, 36, 2, 9, 34567, 3567, 7, 235, 9, 5, 36, 4, 1, 356, 8, 1345, 1345, 6, 7, 39, 8, 2, 345, 35, 13, 137, 2, 6, 8, 9, 5, 1, 4, 8, 1, 4, 2, 5, 3, 7, 46, 9, 6, 9, 5, 4, 1, 7, 3, 28, 2]
def cB80 : Board := natsToBoard [45, 458, 3, 9, 2, 1, 6, 57, 57, 9, 2468, 7, 3, 4, 5, 8, 27, 1, 25, 25, 1, 8, 7, 6, 4, 2359, 35, 345, 345, 8, 1, 36, 2, 9, 34567, 3567, 7, 235, 9, 5, 36, 4, 1, 356, 8, 1345, 1345, 6, 7, 39, 8, 2, 345, 35, 13, 137, 2, 6, 8, 9, 5, 1, 4, 8, 1, 4, 2, 5, 3, 7, 46, 9, 6, 9, 5, 4, 1, 7, 3, 28, 2]
def cB81 : Board := natsToBoard [45, 458, 3, 9, 2, 1, 6, 57, 57, 9, 2468, 7, 3, 4, 5, 8, 27, 1, 25, 25, 1, 8, 7, 6, 4, 2359, 35, 345, 345, 8, 1, 36, 2, 9, 34567, 3567, 7, 235, 9, 5, 36, 4, 1, 356, 8, 1345, 1345, 6, 7, 39, 8, 2, 345, 35, 13, 137, 2, 6, 8, 9, 5, 1, 4, 8, 1, 4, 2, 5, 3, 7, 6, 9, 6, 9, 5, 4, 1, 7, 3, 8, 2]
def cB82 : Board := natsToBoard [45, 458, 3, 9, 2, 1, 6, 57, 57, 9, 2468, 7, 3, 4, 5, 8, 27, 1, 25, 25, 1, 8, 7, 6, 4, 2359, 35, 345, 345, 8, 1, 36, 2, 9, 34567, 3567, 7, 235, 9, 5, 36, 4, 1, 356, 8, 1345, 1345, 6, 7, 39, 8, 2, 345, 35, 13, 137, 2, 6, 8, 9, 5, 1, 4, 8, 1, 4, 2, 5, 3, 7, 6, 9, 6, 9, 5, 4, 1, 7, 3, 8, 2]
def cB83 : Board := natsToBoard [45, 458, 3, 9, 2, 1, 6, 57, 57, 9, 26, 7, 3, 4, 5, 8, 2, 1, 25, 25, 1, 8, 7, 6, 4, 2359, 35, 345, 345, 8, 1, 36, 2, 9, 34567, 3567, 7, 235, 9, 5, 36, 4, 1, 356, 8, 1345, 1345, 6, 7, 39, 8, 2, 345, 35, 13, 137, 2, 6, 8, 9, 5, 1, 4, 8, 1, 4, 2, 5, 3, 7, 6, 9, 6, 9, 5, 4, 1, 7, 3, 8, 2]
def cB84 : Board := natsToBoard [45, 458, 3, 9, 2, 1, 6, 57, 57, 9, 26, 7, 3, 4, 5, 8, 2, 1, 25, 25, 1, 8, 7, 6, 4, 2359, 35, 345, 345, 8, 1, 36, 2, 9, 34567, 3567, 7, 235, 9, 5, 36, 4, 1, 356, 8, 1345, 1345, 6, 7, 39, 8, 2, 345, 35, 13, 137, 2, 6, 8, 9, 5, 1, 4, 8, 1, 4, 2, 5, 3, 7, 6, 9, 6, 9, 5, 4, 1, 7, 3, 8, 2]
def cB85 : Board := natsToBoard [45, 458, 3, 9, 2, 1, 6, 57, 57, 9, 26, 7, 3, 4, 5, 8, 2, 1, 25, 25, 1, 8, 7, 6, 4, 2359, 35, 345, 345, 8, 1, 36, 2, 9, 34567, 3567, 7, 235, 9, 5, 36, 4, 1, 356, 8, 1345, 1345, 6, 7, 39, 8, 2, 345, 35, 13, 137, 2, 6, 8, 9, 5, 1, 4, 8, 1, 4, 2, 5, 3, 7, 6, 9, 6, 9, 5, 4, 1, 7, 3, 8, 2]
def cB86 : Board := natsToBoard [45, 458, 3, 9, 2, 1, 6, 57, 57, 9, 26, 7, 3, 4, 5, 8, 2, 1, 25, 25, 1, 8, 7, 6, 4, 2359, 35, 345, 345, 8, 1, 36, 2, 9, 34567, 3567, 7, 23, 9, 5, 36, 4, 1, 36, 8, 1345, 1345, 6, 7, 39, 8, 2, 345, 35, 13, 137, 2, 6, 8, 9, 5, 1, 4, 8, 1, 4, 2, 5, 3, 7, 6, 9, 6, 9, 5, 4, 1, 7, 3, 8, 2]
def cB87 : Board := natsToBoard [45, 458, 3, 9, 2, 1, 6, 57, 57, 9, 26, 7, 3, 4, 5, 8, 2, 1, 25, 25, 1, 8, 7, 6, 4, 2359, 35, 345, 345, 8, 1, 36, 2, 9, 34567, 3567, 7, 23, 9, 5, 36, 4, 1, 36, 8, 1345, 1345, 6, 7, 39, 8, 2, 345, 35, 13, 137, 2, 6, 8, 9, 5, 1, 4, 8, 1, 4, 2, 5, 3, 7, 6, 9, 6, 9, 5, 4, 1, 7, 3, 8, 2]
def cB88 : Board := natsToBoard [45, 458, 3, 9, 2, 1, 6, 57, 57, 9, 26, 7, 3, 4, 5, 8, 2, 1, 25, 25, 1, 8, 7, 6, 4, 2359, 35, 345, 345, 8, 1, 36, 2, 9, 34567, 3567, 7, 23, 9, 5, 36, 4, 1, 36, 8, 1345, 1345, 6, 7, 39, 8, 2, 345, 35, 3, 37, 2, 6, 8, 9, 5, 1, 4, 8, 1, 4, 2, 5, 3, 7, 6, 9, 6, 9, 5, 4, 1, 7, 3, 8, 2]
def cB89 : Board := natsToBoard [45, 458, 3, 9, 2, 1, 6, 57, 57, 9, 26, 7, 3, 4, 5, 8, 2, 1, 25, 25, 1, 8, 7, 6, 4, 2359, 35, 345, 345, 8, 1, 36, 2, 9, 34567, 3567, 7, 23, 9, 5, 36, 4, 1, 36, 8, 1345, 1345, 6, 7, 39, 8, 2, 345, 35, 3, 37, 2, 6, 8, 9, 5, 1, 4, 8, 1, 4, 2, 5, 3, 7, 6, 9, 6, 9, 5, 4, 1, 7, 3, 8, 2]
def cB90 : Board := natsToBoard [45, 458, 3, 9, 2, 1, 6, 57, 57, 9, 26, 7, 3, 4, 5, 8, 2, 1, 25, 25, 1, 8, 7, 6, 4, 2359, 35, 345, 345, 8, 1, 36, 2, 9, 34567, 3567, 7, 23, 9, 5, 36, 4, 1, 36, 8, 1345, 1345, 6, 7, 39, 8, 2, 345, 35, 3, 37, 2, 6, 8, 9, 5, 1, 4, 8, 1, 4, 2, 5, 3, 7, 6, 9, 6, 9, 5, 4, 1, 7, 3, 8, 2]
def cB91 : Board := natsToBoard [45, 458, 3, 9, 2, 1, 6, 57, 57, 9, 26, 7, 3, 4, 5, 8, 2, 1, 25, 25, 1, 8, 7, 6, 4, 2359, 35, 45, 345, 8, 1, 36, 2, 9, 34567, 3567, 7, 23, 9, 5, 36, 4, 1, 36, 8, 145, 1345, 6, 7, 39, 8, 2, 345, 35, 3, 37, 2, 6, 8, 9, 5, 1, 4, 8, 1, 4, 2, 5, 3, 7, 6, 9, 6, 9, 5, 4, 1, 7, 3, 8, 2]
def cB92 : Board := natsToBoard [45, 458, 3, 9, 2, 1, 6, 57, 57, 9, 26, 7, 3, 4, 5, 8, 2, 1, 25, 25, 1, 8, 7, 6, 4, 2359, 35, 45, 345, 8, 1, 36, 2, 9, 34567, 3567, 7, 23, 9, 5, 36, 4, 1, 36, 8, 145, 345, 6, 7, 39, 8, 2, 345, 35, 3, 37, 2, 6, 8, 9, 5, 1, 4, 8, 1, 4, 2, 5, 3, 7, 6, 9, 6, 9, 5, 4, 1, 7, 3, 8, 2]
def cB93 : Board := natsToBoard [45, 458, 3, 9, 2, 1, 6, 57, 57, 9, 26, 7, 3, 4, 5, 8, 2, 1, 25, 25, 1, 8, 7, 6, 4, 2359, 35, 45, 345, 8, 1, 36, 2, 9, 34567, 3567, 7, 23, 9, 5, 36, 4, 1, 36, 8, 145, 345, 6, 7, 39, 8, 2, 345, 35, 3, 37, 2, 6, 8, 9, 5, 1, 4, 8, 1, 4, 2, 5, 3, 7, 6, 9, 6, 9, 5, 4, 1, 7, 3, 8, 2]
def cB94 : Board := natsToBoard [45, 458, 3, 9, 2, 1, 6, 57, 57, 9, 26, 7, 3, 4, 5, 8, 2, 1, 25, 25, 1, 8, 7, 6, 4, 2359, 35, 45, 345, 8, 1, 36, 2, 9, 34567, 3567, 7, 23, 9, 5, 36, 4, 1, 36, 8, 145, 345, 6, 7, 39, 8, 2, 345, 35, 3, 37, 2, 6, 8, 9, 5, 1, 4, 8, 1, 4, 2, 5, 3, 7, 6, 9, 6, 9, 5, 4, 1, 7, 3, 8, 2]
def cB95 : Board := natsToBoard [45, 458, 3, 9, 2, 1, 6, 57, 57, 9, 26, 7, 3, 4, 5, 8, 2, 1, 25, 25, 1, 8, 7, 6, 4, 2359, 35, 45, 345, 8, 1, 36, 2, 9, 34567, 3567, 7, 23, 9, 5, 36, 4, 1, 36, 8, 145, 345, 6, 7, 39, 8, 2, 345, 35, 3, 37, 2, 6, 8, 9, 5, 1, 4, 8, 1, 4, 2, 5, 3, 7, 6, 9, 6, 9, 5, 4, 1, 7, 3, 8, 2]
def cB96 : Board := natsToBoard [45, 458, 3, 9, 2, 1, 6, 57, 57, 9, 26, 7, 3, 4, 5, 8, 2, 1, 25, 25, 1, 8, 7, 6, 4, 2359, 35, 45, 345, 8, 1, 36, 2, 9, 34567, 3567, 7, 23, 9, 5, 36, 4, 1, 36, 8, 145, 345, 6, 7, 39, 8, 2, 345, 35, 3, 37, 2, 6, 8, 9, 5, 1, 4, 8, 1, 4, 2, 5, 3, 7, 6, 9, 6, 9, 5, 4, 1, 7, 3, 8, 2]
def cB97 : Board := natsToBoard [45, 458, 3, 9, 2, 1, 6, 57, 57, 9, 26, 7, 3, 4, 5, 8, 2, 1, 25, 25, 1, 8, 7, 6, 4, 2359, 35, 45, 345, 8, 1, 36, 2, 9, 34567, 3567, 7, 23, 9, 5, 36, 4, 1, 36, 8, 145, 345, 6, 7, 39, 8, 2, 345, 35, 3, 37, 2, 6, 8, 9, 5, 1, 4, 8, 1, 4, 2, 5, 3, 7, 6, 9, 6, 9, 5, 4, 1, 7, 3, 8, 2]
def cB98 : Board := natsToBoard [45, 458, 3, 9, 2, 1, 6, 57, 57, 9, 26, 7, 3, 4, 5, 8, 2, 1, 25, 25, 1, 8, 7, 6, 4, 359, 35, 45, 345, 8, 1, 36, 2, 9, 3457, 3567, 7, 23, 9, 5, 36, 4, 1, 3, 8, 145, 345, 6, 7, 39, 8, 2, 345, 35, 3, 37, 2, 6, 8, 9, 5, 1, 4, 8, 1, 4, 2, 5, 3, 7, 6, 9, 6, 9, 5, 4, 1, 7, 3, 8, 2]
def cB99 : Board := natsToBoard [45, 458, 3, 9, 2, 1, 6, 57, 57, 9, 26, 7, 3, 4, 5, 8, 2, 1, 25, 25, 1, 8, 7, 6, 4, 359, 35, 45, 345, 8, 1, 36, 2, 9, 3457, 3567, 7, 23, 9, 5, 36, 4, 1, 3, 8, 145, 345, 6, 7, 39, 8, 2, 345, 35, 3, 37, 2, 6, 8, 9, 5, 1, 4, 8, 1, 4, 2, 5, 3, 7, 6, 9, 6, 9, 5, 4, 1, 7, 3, 8, 2]
def cB100 : Board := natsToBoard [45, 458, 3, 9, 2, 1, 6, 57, 57, 9, 26, 7, 3, 4, 5, 8, 2, 1, 25, 25, 1, 8, 7, 6, 4, 359, 35, 45, 345, 8, 1, 36, 2, 9, 3457, 3567, 7, 23, 9, 5, 36, 4, 1, 3, 8, 145, 345, 6, 7, 39, 8, 2, 345, 35, 3, 37, 2, 6, 8, 9, 5, 1, 4, 8, 1, 4, 2, 5, 3, 7, 6, 9, 6, 9, 5, 4, 1, 7, 3, 8, 2]
def cB101 : Board := natsToBoard [45, 458, 3, 9, 2, 1, 6, 57, 57, 9, 26, 7, 3, 4, 5, 8, 2, 1, 25, 25, 1, 8, 7, 6, 4, 359, 35, 45, 345, 8, 1, 36, 2, 9, 3457, 3567, 7, 23, 9, 5, 36, 4, 1, 3, 8, 145, 345, 6, 7, 39, 8, 2, 345, 35, 3, 37, 2, 6, 8, 9, 5, 1, 4, 8, 1, 4, 2, 5, 3, 7, 6, 9, 6, 9, 5, 4, 1, 7, 3, 8, 2]
def cB102 : Board := natsToBoard [45, 458, 3, 9, 2, 1, 6, 57, 57, 9, 26, 7, 3, 4, 5, 8, 2, 1, 25, 25, 1, 8, 7, 6, 4, 359, 35, 45, 345, 8, 1, 36, 2, 9, 3457, 3567, 7, 23, 9, 5, 36, 4, 1, 3, 8, 145, 345, 6, 7, 39, 8, 2, 345, 35, 3, 7, 2, 6, 8, 9, 5, 1, 4, 8, 1, 4, 2, 5, 3, 7, 6, 9, 6, 9, 5, 4, 1, 7, 3, 8, 2]
def cB103 : Board := natsToBoard [45, 458, 3, 9, 2, 1, 6, 57, 57, 9, 26, 7, 3, 4, 5, 8, 2, 1, 25, 25, 1, 8, 7, 6, 4, 359, 35, 45, 345, 8, 1, 36, 2, 9, 3457, 3567, 7, 23, 9, 5, 36, 4, 1, 3, 8, 145, 345, 6, 7, 39, 8, 2, 345, 35, 3, 7, 2, 6, 8, 9, 5, 1, 4, 8, 1, 4, 2, 5, 3, 7, 6, 9, 6, 9, 5, 4, 1, 7, 3, 8, 2]
def cB104 : Board := natsToBoard [45, 458, 3, 9, 2, 1, 6, 57, 57, 9, 26, 7, 3, 4, 5, 8, 2, 1, 25, 25, 1, 8, 7, 6, 4, 359, 35, 45, 345, 8, 1, 36, 2, 9, 3457, 3567, 7, 23, 9, 5, 36, 4, 1, 3, 8, 145, 345, 6, 7, 39, 8, 2, 345, 35, 3, 7, 2, 6, 8, 9, 5, 1, 4, 8, 1, 4, 2, 5, 3, 7, 6, 9, 6, 9, 5, 4, 1, 7, 3, 8, 2]
def cB105 : Board := natsToBoard [45, 458, 3, 9, 2, 1, 6, 57, 57, 9, 26, 7, 3, 4, 5, 8, 2, 1, 25, 25, 1, 8, 7, 6, 4, 359, 35, 45, 345, 8, 1, 36, 2, 9, 3457, 3567, 7, 23, 9, 5, 36, 4, 1, 3, 8, 145, 345, 6, 7, 39, 8, 2, 345, 35, 3, 7, 2, 6, 8, 9, 5, 1, 4, 8, 1, 4, 2, 5, 3, 7, 6, 9, 6, 9, 5, 4, 1, 7, 3, 8, 2]
def cB106 : Board := natsToBoard [45, 458, 3, 9, 2, 1, 6, 57, 57, 9, 26, 7, 3, 4, 5, 8, 2, 1, 25, 25, 1, 8, 7, 6, 4, 359, 35, 45, 345, 8, 1, 36, 2, 9, 3457, 3567, 7, 23, 9, 5, 36, 4, 1, 3, 8, 145, 345, 6, 7, 39, 8, 2, 345, 35, 3, 7, 2, 6, 8, 9, 5, 1, 4, 8, 1, 4, 2, 5, 3, 7, 6, 9, 6, 9, 5, 4, 1, 7, 3, 8, 2]
def cB107 : Board := natsToBoard [45, 458, 3, 9, 2, 1, 6, 57, 57, 9, 26, 7, 3, 4, 5, 8, 2, 1, 25, 25, 1, 8, 7, 6, 4, 359, 35, 45, 345, 8, 1, 36, 2, 9, 457, 567, 7, 23, 9, 5, 36, 4, 1, 3, 8, 145, 345, 6, 7, 39, 8, 2, 45, 5, 3, 7, 2, 6, 8, 9, 5, 1, 4, 8, 1, 4, 2, 5, 3, 7, 6, 9, 6, 9, 5, 4, 1, 7, 3, 8, 2]
def cB108 : Board := natsToBoard [45, 458, 3, 9, 2, 1, 6, 57, 57, 9, 26, 7, 3, 4, 5, 8, 2, 1, 25, 25, 1, 8, 7, 6, 4, 359, 35, 45, 345, 8, 1, 36, 2, 9, 457, 567, 7, 23, 9, 5, 36, 4, 1, 3, 8, 145, 345, 6, 7, 39, 8, 2, 45, 5, 3, 7, 2, 6, 8, 9, 5, 1, 4, 8, 1, 4, 2, 5, 3, 7, 6, 9, 6, 9, 5, 4, 1, 7, 3, 8, 2]
def cB109 : Board := natsToBoard [45, 458, 3, 9, 2, 1, 6, 57, 57, 9, 26, 7, 3, 4, 5, 8, 2, 1, 25, 25, 1, 8, 7, 6, 4, 359, 35, 45, 345, 8, 1, 36, 2, 9, 457, 567, 7, 23, 9, 5, 36, 4, 1, 3, 8, 145, 345, 6, 7, 39, 8, 2, 45, 5, 3, 7, 2, 6, 8, 9, 5, 1, 4, 8, 1, 4, 2, 5, 3, 7, 6, 9, 6, 9, 5, 4, 1, 7, 3, 8, 2]
def cB110 : Board := natsToBoard [45, 458, 3, 9, 2, 1, 6, 57, 57, 9, 6, 7, 3, 4, 5, 8, 2, 1, 25, 25, 1, 8, 7, 6, 4, 359, 35, 45, 345, 8, 1, 36, 2, 9, 457, 567, 7, 23, 9, 5, 36, 4, 1, 3, 8, 145, 345, 6, 7, 39, 8, 2, 45, 5, 3, 7, 2, 6, 8, 9, 5, 1, 4, 8, 1, 4, 2, 5, 3, 7, 6, 9, 6, 9, 5, 4, 1, 7, 3, 8, 2]
def cB111 : Board := natsToBoard [45, 458, 3, 9, 2, 1, 6, 57, 57, 9, 6, 7, 3, 4, 5, 8, 2, 1, 25, 25, 1, 8, 7, 6, 4, 359, 35, 45, 345, 8, 1, 36, 2, 9, 457, 567, 7, 23, 9, 5, 36, 4, 1, 3, 8, 145, 345, 6, 7, 39, 8, 2, 45, 5, 3, 7, 2, 6, 8, 9, 5, 1, 4, 8, 1, 4, 2, 5, 3, 7, 6, 9, 6, 9, 5, 4, 1, 7, 3, 8, 2]
def cB112 : Board := natsToBoard [45, 458, 3, 9, 2, 1, 6, 57, 57, 9, 6, 7, 3, 4, 5, 8, 2, 1, 25, 25, 1, 8, 7, 6, 4, 359, 35, 45, 345, 8, 1, 36, 2, 9, 457, 567, 7, 23, 9, 5, 36, 4, 1, 3, 8, 145, 345, 6, 7, 39, 8, 2, 45, 5, 3, 7, 2, 6, 8, 9, 5, 1, 4, 8, 1, 4, 2, 5, 3, 7, 6, 9, 6, 9, 5, 4, 1, 7, 3, 8, 2]
def cB113 : Board := natsToBoard [45, 458, 3, 9, 2, 1, 6, 57, 57, 9, 6, 7, 3, 4, 5, 8, 2, 1, 25, 25, 1, 8, 7, 6, 4, 359, 35, 45, 345, 8, 1, 36, 2, 9, 457, 567, 7, 2, 9, 5, 6, 4, 1, 3, 8, 145, 345, 6, 7, 39, 8, 2, 45, 5, 3, 7, 2, 6, 8, 9, 5, 1, 4, 8, 1, 4, 2, 5, 3, 7, 6, 9, 6, 9, 5, 4, 1, 7, 3, 8, 2]
def cB114 : Board := natsToBoard [45, 458, 3, 9, 2, 1, 6, 57, 57, 9, 6, 7, 3, 4, 5, 8, 2, 1, 25, 25, 1, 8, 7, 6, 4, 359, 35, 45, 345, 8, 1, 36, 2, 9, 457, 567, 7, 2, 9, 5, 6, 4, 1, 3, 8, 14, 34, 6, 7, 39, 8, 2, 4, 5, 3, 7, 2, 6, 8, 9, 5, 1, 4, 8, 1, 4, 2, 5, 3, 7, 6, 9, 6, 9, 5, 4, 1, 7, 3, 8, 2]
def cB115 : Board := natsToBoard [45, 458, 3, 9, 2, 1, 6, 57, 57, 9, 6, 7, 3, 4, 5, 8, 2, 1, 25, 25, 1, 8, 7, 6, 4, 359, 35, 45, 345, 8, 1, 36, 2, 9, 457, 567, 7, 2, 9, 5, 6, 4, 1, 3, 8, 14, 34, 6, 7, 39, 8, 2, 4, 5, 3, 7, 2, 6, 8, 9, 5, 1, 4, 8, 1, 4, 2, 5, 3, 7, 6, 9, 6, 9, 5, 4, 1, 7, 3, 8, 2]
def cB116 : Board := natsToBoard [45, 458, 3, 9, 2, 1, 6, 57, 57, 9, 6, 7, 3, 4, 5, 8, 2, 1, 25, 25, 1, 8, 7, 6, 4, 359, 35, 45, 345, 8, 1, 36, 2, 9, 457, 567, 7, 2, 9, 5, 6, 4, 1, 3, 8, 14, 34, 6, 7, 39, 8, 2, 4, 5, 3, 7, 2, 6, 8, 9, 5, 1, 4, 8, 1, 4, 2, 5, 3, 7, 6, 9, 6, 9, 5, 4, 1, 7, 3, 8, 2]
def cB117 : Board := natsToBoard [45, 458, 3, 9, 2, 1, 6, 57, 57, 9, 6, 7, 3, 4, 5, 8, 2, 1, 25, 25, 1, 8, 7, 6, 4, 359, 35, 45, 345, 8, 1, 36, 2, 9, 457, 567, 7, 2, 9, 5, 6, 4, 1, 3, 8, 14, 34, 6, 7, 39, 8, 2, 4, 5, 3, 7, 2, 6, 8, 9, 5, 1, 4, 8, 1, 4, 2, 5, 3, 7, 6, 9, 6, 9, 5, 4, 1, 7, 3, 8, 2]
def cB118 : Board := natsToBoard [45, 458, 3, 9, 2, 1, 6, 57, 57, 9, 6, 7, 3, 4, 5, 8, 2, 1, 25, 25, 1, 8, 7, 6, 4, 359, 35, 45, 345, 8, 1, 36, 2, 9, 457, 567, 7, 2, 9, 5, 6, 4, 1, 3, 8, 14, 34, 6, 7, 39, 8, 2, 4, 5, 3, 7, 2, 6, 8, 9, 5, 1, 4, 8, 1, 4, 2, 5, 3, 7, 6, 9, 6, 9, 5, 4, 1, 7, 3, 8, 2]
def cB119 : Board := natsToBoard [45, 458, 3, 9, 2, 1, 6, 57, 57, 9, 6, 7, 3, 4, 5, 8, 2, 1, 25, 5, 1, 8, 7, 6, 4, 359, 35, 45, 345, 8, 1, 36, 2, 9, 457, 567, 7, 2, 9, 5, 6, 4, 1, 3, 8, 14, 34, 6, 7, 39, 8, 2, 4, 5, 3, 7, 2, 6, 8, 9, 5, 1, 4, 8, 1, 4, 2, 5, 3, 7, 6, 9, 6, 9, 5, 4, 1, 7, 3, 8, 2]
def cB120 : Board := natsToBoard [45, 458, 3, 9, 2, 1, 6, 57, 57, 9, 6, 7, 3, 4, 5, 8, 2, 1, 25, 5, 1, 8, 7, 6, 4, 359, 35, 45, 345, 8, 1, 36, 2, 9, 457, 567, 7, 2, 9, 5, 6, 4, 1, 3, 8, 14, 34, 6, 7, 39, 8, 2, 4, 5, 3, 7, 2, 6, 8, 9, 5, 1, 4, 8, 1, 4, 2, 5, 3, 7, 6, 9, 6, 9, 5, 4, 1, 7, 3, 8, 2]
def cB121 : Board := natsToBoard [45, 458, 3, 9, 2, 1, 6, 57, 57, 9, 6, 7, 3, 4, 5, 8, 2, 1, 25, 5, 1, 8, 7, 6, 4, 359, 35, 45, 345, 8, 1, 36, 2, 9, 457, 567, 7, 2, 9, 5, 6, 4, 1, 3, 8, 14, 34, 6, 7, 39, 8, 2, 4, 5, 3, 7, 2, 6, 8, 9, 5, 1, 4, 8, 1, 4, 2, 5, 3, 7, 6, 9, 6, 9, 5, 4, 1, 7, 3, 8, 2]
def cB122 : Board := natsToBoard [45, 458, 3, 9, 2, 1, 6, 57, 57, 9, 6, 7, 3, 4, 5, 8, 2, 1, 25, 5, 1, 8, 7, 6, 4, 359, 35, 45, 345, 8, 1, 3, 2, 9, 457, 567, 7, 2, 9, 5, 6, 4, 1, 3, 8, 14, 34, 6, 7, 39, 8, 2, 4, 5, 3, 7, 2, 6, 8, 9, 5, 1, 4, 8, 1, 4, 2, 5, 3, 7, 6, 9, 6, 9, 5, 4, 1, 7, 3, 8, 2]
def cB123 : Board := natsToBoard [45, 458, 3, 9, 2, 1, 6, 57, 57, 9, 6, 7, 3, 4, 5, 8, 2, 1, 25, 5, 1, 8, 7, 6, 4, 359, 35, 45, 345, 8, 1, 3, 2, 9, 457, 567, 7, 2, 9, 5, 6, 4, 1, 3, 8, 14, 34, 6, 7, 39, 8, 2, 4, 5, 3, 7, 2, 6, 8, 9, 5, 1, 4, 8, 1, 4, 2, 5, 3, 7, 6, 9, 6, 9, 5, 4, 1, 7, 3, 8, 2]
def cB124 : Board := natsToBoard [45, 458, 3, 9, 2, 1, 6, 57, 57, 9, 6, 7, 3, 4, 5, 8, 2, 1, 25, 5, 1, 8, 7, 6, 4, 359, 35, 45, 345, 8, 1, 3, 2, 9, 457, 567, 7, 2, 9, 5, 6, 4, 1, 3, 8, 14, 34, 6, 7, 39, 8, 2, 4, 5, 3, 7, 2, 6, 8, 9, 5, 1, 4, 8, 1, 4, 2, 5, 3, 7, 6, 9, 6, 9, 5, 4, 1, 7, 3, 8, 2]
def cB125 : Board := natsToBoard [45, 458, 3, 9, 2, 1, 6, 57, 57, 9, 6, 7, 3, 4, 5, 8, 2, 1, 25, 5, 1, 8, 7, 6, 4, 59, 35, 45, 345, 8, 1, 3, 2, 9, 57, 567, 7, 2, 9, 5, 6, 4, 1, 3, 8, 14, 34, 6, 7, 39, 8, 2, 4, 5, 3, 7, 2, 6, 8, 9, 5, 1, 4, 8, 1, 4, 2, 5, 3, 7, 6, 9, 6, 9, 5, 4, 1, 7, 3, 8, 2]
def cB126 : Board := natsToBoard [45, 458, 3, 9, 2, 1, 6, 57, 7, 9, 6, 7, 3, 4, 5, 8, 2, 1, 25, 5, 1, 8, 7, 6, 4, 59, 3, 45, 345, 8, 1, 3, 2, 9, 57, 67, 7, 2, 9, 5, 6, 4, 1, 3, 8, 14, 34, 6, 7, 39, 8, 2, 4, 5, 3, 7, 2, 6, 8, 9, 5, 1, 4, 8, 1, 4, 2, 5, 3, 7, 6, 9, 6, 9, 5, 4, 1, 7, 3, 8, 2]
def cB127 : Board := natsToBoard [4, 48, 3, 9, 2, 1, 6, 57, 7, 9, 6, 7, 3, 4, 5, 8, 2, 1, 2, 5, 1, 8, 7, 6, 4, 59, 3, 45, 345, 8, 1, 3, 2, 9, 57, 67, 7, 2, 9, 5, 6, 4, 1, 3, 8, 14, 34, 6, 7, 39, 8, 2, 4, 5, 3, 7, 2, 6, 8, 9, 5, 1, 4, 8, 1, 4, 2, 5, 3, 7, 6, 9, 6, 9, 5, 4, 1, 7, 3, 8, 2]
def cB128 : Board := natsToBoard [4, 48, 3, 9, 2, 1, 6, 57, 7, 9, 6, 7, 3, 4, 5, 8, 2, 1, 2, 5, 1, 8, 7, 6, 4, 59, 3, 45, 345, 8, 1, 3, 2, 9, 57, 67, 7, 2, 9, 5, 6, 4, 1, 3, 8, 14, 34, 6, 7, 39, 8, 2, 4, 5, 3, 7, 2, 6, 8, 9, 5, 1, 4, 8, 1, 4, 2, 5, 3, 7, 6, 9, 6, 9, 5, 4, 1, 7, 3, 8, 2]
def cB129 : Board := natsToBoard [4, 48, 3, 9, 2, 1, 6, 57, 7, 9, 6, 7, 3, 4, 5, 8, 2, 1, 2, 5, 1, 8, 7, 6, 4, 59, 3, 45, 345, 8, 1, 3, 2, 9, 57, 67, 7, 2, 9, 5, 6, 4, 1, 3, 8, 14, 34, 6, 7, 39, 8, 2, 4, 5, 3, 7, 2, 6, 8, 9, 5, 1, 4, 8, 1, 4, 2, 5, 3, 7, 6, 9, 6, 9, 5, 4, 1, 7, 3, 8, 2]
def cB130 : Board := natsToBoard [4, 48, 3, 9, 2, 1, 6, 57, 7, 9, 6, 7, 3, 4, 5, 8, 2, 1, 2, 5, 1, 8, 7, 6, 4, 59, 3, 45, 345, 8, 1, 3, 2, 9, 57, 67, 7, 2, 9, 5, 6, 4, 1, 3, 8, 14, 34, 6, 7, 39, 8, 2, 4, 5, 3, 7, 2, 6, 8, 9, 5, 1, 4, 8, 1, 4, 2, 5, 3, 7, 6, 9, 6, 9, 5, 4, 1, 7, 3, 8, 2]
def cB131 : Board := natsToBoard [4, 48, 3, 9, 2, 1, 6, 57, 7, 9, 6, 7, 3, 4, 5, 8, 2, 1, 2, 5, 1, 8, 7, 6, 4, 59, 3, 45, 345, 8, 1, 3, 2, 9, 57, 67, 7, 2, 9, 5, 6, 4, 1, 3, 8, 14, 34, 6, 7, 9, 8, 2, 4, 5, 3, 7, 2, 6, 8, 9, 5, 1, 4, 8, 1, 4, 2, 5, 3, 7, 6, 9, 6, 9, 5, 4, 1, 7, 3, 8, 2]
def cB132 : Board := natsToBoard [4, 48, 3, 9, 2, 1, 6, 57, 7, 9, 6, 7, 3, 4, 5, 8, 2, 1, 2, 5, 1, 8, 7, 6, 4, 59, 3, 45, 345, 8, 1, 3, 2, 9, 57, 67, 7, 2, 9, 5, 6, 4, 1, 3, 8, 14, 34, 6, 7, 9, 8, 2, 4, 5, 3, 7, 2, 6, 8, 9, 5, 1, 4, 8, 1, 4, 2, 5, 3, 7, 6, 9, 6, 9, 5, 4, 1, 7, 3, 8, 2]
def cB133 : Board := natsToBoard [4, 48, 3, 9, 2, 1, 6, 5, 7, 9, 6, 7, 3, 4, 5, 8, 2, 1, 2, 5, 1, 8, 7, 6, 4, 59, 3, 45, 345, 8, 1, 3, 2, 9, 57, 67, 7, 2, 9, 5, 6, 4, 1, 3, 8, 14, 34, 6, 7, 9, 8, 2, 4, 5, 3, 7, 2, 6, 8, 9, 5, 1, 4, 8, 1, 4, 2, 5, 3, 7, 6, 9, 6, 9, 5, 4, 1, 7, 3, 8, 2]
def cB134 : Board := natsToBoard [4, 48, 3, 9, 2, 1, 6, 5, 7, 9, 6, 7, 3, 4, 5, 8, 2, 1, 2, 5, 1, 8, 7, 6, 4, 59, 3, 45, 345, 8, 1, 3, 2, 9, 7, 67, 7, 2, 9, 5, 6, 4, 1, 3, 8, 14, 34, 6, 7, 9, 8, 2, 4, 5, 3, 7, 2, 6, 8, 9, 5, 1, 4, 8, 1, 4, 2, 5, 3, 7, 6, 9, 6, 9, 5, 4, 1, 7, 3, 8, 2]
def cB135 : Board := natsToBoard [4, 48, 3, 9, 2, 1, 6, 5, 7, 9, 6, 7, 3, 4, 5, 8, 2, 1, 2, 5, 1, 8, 7, 6, 4, 59, 3, 45, 345, 8, 1, 3, 2, 9, 7, 67, 7, 2, 9, 5, 6, 4, 1, 3, 8, 14, 34, 6, 7, 9, 8, 2, 4, 5, 3, 7, 2, 6, 8, 9, 5, 1, 4, 8, 1, 4, 2, 5, 3, 7, 6, 9, 6, 9, 5, 4, 1, 7, 3, 8, 2]
def cB136 : Board := natsToBoard [4, 8, 3, 9, 2, 1, 6, 5, 7, 9, 6, 7, 3, 4, 5, 8, 2, 1, 2, 5, 1, 8, 7, 6, 4, 59, 3, 45, 345, 8, 1, 3, 2, 9, 7, 67, 7, 2, 9, 5, 6, 4, 1, 3, 8, 14, 34, 6, 7, 9, 8, 2, 4, 5, 3, 7, 2, 6, 8, 9, 5, 1, 4, 8, 1, 4, 2, 5, 3, 7, 6, 9, 6, 9, 5, 4, 1, 7, 3, 8, 2]
def cB137 : Board := natsToBoard [4, 8, 3, 9, 2, 1, 6, 5, 7, 9, 6, 7, 3, 4, 5, 8, 2, 1, 2, 5, 1, 8, 7, 6, 4, 59, 3, 45, 345, 8, 1, 3, 2, 9, 7, 67, 7, 2, 9, 5, 6, 4, 1, 3, 8, 14, 34, 6, 7, 9, 8, 2, 4, 5, 3, 7, 2, 6, 8, 9, 5, 1, 4, 8, 1, 4, 2, 5, 3, 7, 6, 9, 6, 9, 5, 4, 1, 7, 3, 8, 2]
def cB138 : Board := natsToBoard [4, 8, 3, 9, 2, 1, 6, 5, 7, 9, 6, 7, 3, 4, 5, 8, 2, 1, 2, 5, 1, 8, 7, 6, 4, 9, 3, 45, 345, 8, 1, 3, 2, 9, 7, 67, 7, 2, 9, 5, 6, 4, 1, 3, 8, 14, 34, 6, 7, 9, 8, 2, 4, 5, 3, 7, 2, 6, 8, 9, 5, 1, 4, 8, 1, 4, 2, 5, 3, 7, 6, 9, 6, 9, 5, 4, 1, 7, 3, 8, 2]
def cB139 : Board := natsToBoard [4, 8, 3, 9, 2, 1, 6, 5, 7, 9, 6, 7, 3, 4, 5, 8, 2, 1, 2, 5, 1, 8, 7, 6, 4, 9, 3, 45, 45, 8, 1, 3, 2, 9, 7, 6, 7, 2, 9, 5, 6, 4, 1, 3, 8, 14, 34, 6, 7, 9, 8, 2, 4, 5, 3, 7, 2, 6, 8, 9, 5, 1, 4, 8, 1, 4, 2, 5, 3, 7, 6, 9, 6, 9, 5, 4, 1, 7, 3, 8, 2]
def cB140 : Board := natsToBoard [4, 8, 3, 9, 2, 1, 6, 5, 7, 9, 6, 7, 3, 4, 5, 8, 2, 1, 2, 5, 1, 8, 7, 6, 4, 9, 3, 45, 45, 8, 1, 3, 2, 9, 7, 6, 7, 2, 9, 5, 6, 4, 1, 3, 8, 14, 34, 6, 7, 9, 8, 2, 4, 5, 3, 7, 2, 6, 8, 9, 5, 1, 4, 8, 1, 4, 2, 5, 3, 7, 6, 9, 6, 9, 5, 4, 1, 7, 3, 8, 2]
def cB141 : Board := natsToBoard [4, 8, 3, 9, 2, 1, 6, 5, 7, 9, 6, 7, 3, 4, 5, 8, 2, 1, 2, 5, 1, 8, 7, 6, 4, 9, 3, 45, 45, 8, 1, 3, 2, 9, 7, 6, 7, 2, 9, 5, 6, 4, 1, 3, 8, 1, 3, 6, 7, 9, 8, 2, 4, 5, 3, 7, 2, 6, 8, 9, 5, 1, 4, 8, 1, 4, 2, 5, 3, 7, 6, 9, 6, 9, 5, 4, 1, 7, 3, 8, 2]
def cB142 : Board := natsToBoard [4, 8, 3, 9, 2, 1, 6, 5, 7, 9, 6, 7, 3, 4, 5, 8, 2, 1, 2, 5, 1, 8, 7, 6, 4, 9, 3, 45, 45, 8, 1, 3, 2, 9, 7, 6, 7, 2, 9, 5, 6, 4, 1, 3, 8, 1, 3, 6, 7, 9, 8, 2, 4, 5, 3, 7, 2, 6, 8, 9, 5, 1, 4, 8, 1, 4, 2, 5, 3, 7, 6, 9, 6, 9, 5, 4, 1, 7, 3, 8, 2]
def cB143 : Board := natsToBoard [4, 8, 3, 9, 2, 1, 6, 5, 7, 9, 6, 7, 3, 4, 5, 8, 2, 1, 2, 5, 1, 8, 7, 6, 4, 9, 3, 45, 45, 8, 1, 3, 2, 9, 7, 6, 7, 2, 9, 5, 6, 4, 1, 3, 8, 1, 3, 6, 7, 9, 8, 2, 4, 5, 3, 7, 2, 6, 8, 9, 5, 1, 4, 8, 1, 4, 2, 5, 3, 7, 6, 9, 6, 9, 5, 4, 1, 7, 3, 8, 2]
def cB144 : Board := natsToBoard [4, 8, 3, 9, 2, 1, 6, 5, 7, 9, 6, 7, 3, 4, 5, 8, 2, 1, 2, 5, 1, 8, 7, 6, 4, 9, 3, 45, 45, 8, 1, 3, 2, 9, 7, 6, 7, 2, 9, 5, 6, 4, 1, 3, 8, 1, 3, 6, 7, 9, 8, 2, 4, 5, 3, 7, 2, 6, 8, 9, 5, 1, 4, 8, 1, 4, 2, 5, 3, 7, 6, 9, 6, 9, 5, 4, 1, 7, 3, 8, 2]
def cB145 : Board := natsToBoard [4, 8, 3, 9, 2, 1, 6, 5, 7, 9, 6, 7, 3, 4, 5, 8, 2, 1, 2, 5, 1, 8, 7, 6, 4, 9, 3, 5, 45, 8, 1, 3, 2, 9, 7, 6, 7, 2, 9, 5, 6, 4, 1, 3, 8, 1, 3, 6, 7, 9, 8, 2, 4, 5, 3, 7, 2, 6, 8, 9, 5, 1, 4, 8, 1, 4, 2, 5, 3, 7, 6, 9, 6, 9, 5, 4, 1, 7, 3, 8, 2]
def cB146 : Board := natsToBoard [4, 8, 3, 9, 2, 1, 6, 5, 7, 9, 6, 7, 3, 4, 5, 8, 2, 1, 2, 5, 1, 8, 7, 6, 4, 9, 3, 5, 4, 8, 1, 3, 2, 9, 7, 6, 7, 2, 9, 5, 6, 4, 1, 3, 8, 1, 3, 6, 7, 9, 8, 2, 4, 5, 3, 7, 2, 6, 8, 9, 5, 1, 4, 8, 1, 4, 2, 5, 3, 7, 6, 9, 6, 9, 5, 4, 1, 7, 3, 8, 2]
def cB147 : Board := natsToBoard [4, 8, 3, 9, 2, 1, 6, 5, 7, 9, 6, 7, 3, 4, 5, 8, 2, 1, 2, 5, 1, 8, 7, 6, 4, 9, 3, 5, 4, 8, 1, 3, 2, 9, 7, 6, 7, 2, 9, 5, 6, 4, 1, 3, 8, 1, 3, 6, 7, 9, 8, 2, 4, 5, 3, 7, 2, 6, 8, 9, 5, 1, 4, 8, 1, 4, 2, 5, 3, 7, 6, 9, 6, 9, 5, 4, 1, 7, 3, 8, 2]
def cB148 : Board := natsToBoard [4, 8, 3, 9, 2, 1, 6, 5, 7, 9, 6, 7, 3, 4, 5, 8, 2, 1, 2, 5, 1, 8, 7, 6, 4, 9, 3, 5, 4, 8, 1, 3, 2, 9, 7, 6, 7, 2, 9, 5, 6, 4, 1, 3, 8, 1, 3, 6, 7, 9, 8, 2, 4, 5, 3, 7, 2, 6, 8, 9, 5, 1, 4, 8, 1, 4, 2, 5, 3, 7, 6, 9, 6, 9, 5, 4, 1, 7, 3, 8, 2]
def cB149 : Board := natsToBoard [4, 8, 3, 9, 2, 1, 6, 5, 7, 9, 6, 7, 3, 4, 5, 8, 2, 1, 2, 5, 1, 8, 7, 6, 4, 9, 3, 5, 4, 8, 1, 3, 2, 9, 7, 6, 7, 2, 9, 5, 6, 4, 1, 3, 8, 1, 3, 6, 7, 9, 8, 2, 4, 5, 3, 7, 2, 6, 8, 9, 5, 1, 4, 8, 1, 4, 2, 5, 3, 7, 6, 9, 6, 9, 5, 4, 1, 7, 3, 8, 2]
def cB150 : Board := natsToBoard [4, 8, 3, 9, 2, 1, 6, 5, 7, 9, 6, 7, 3, 4, 5, 8, 2, 1, 2, 5, 1, 8, 7, 6, 4, 9, 3, 5, 4, 8, 1, 3, 2, 9, 7, 6, 7, 2, 9, 5, 6, 4, 1, 3, 8, 1, 3, 6, 7, 9, 8, 2, 4, 5, 3, 7, 2, 6, 8, 9, 5, 1, 4, 8, 1, 4, 2, 5, 3, 7, 6, 9, 6, 9, 5, 4, 1, 7, 3, 8, 2]
def cB151 : Board := natsToBoard [4, 8, 3, 9, 2, 1, 6, 5, 7, 9, 6, 7, 3, 4, 5, 8, 2, 1, 2, 5, 1, 8, 7, 6, 4, 9, 3, 5, 4, 8, 1, 3, 2, 9, 7, 6, 7, 2, 9, 5, 6, 4, 1, 3, 8, 1, 3, 6, 7, 9, 8, 2, 4, 5, 3, 7, 2, 6, 8, 9, 5, 1, 4, 8, 1, 4, 2, 5, 3, 7, 6, 9, 6, 9, 5, 4, 1, 7, 3, 8, 2]
def cB152 : Board := natsToBoard [4, 8, 3, 9, 2, 1, 6, 5, 7, 9, 6, 7, 3, 4, 5, 8, 2, 1, 2, 5, 1, 8, 7, 6, 4, 9, 3, 5, 4, 8, 1, 3, 2, 9, 7, 6, 7, 2, 9, 5, 6, 4, 1, 3, 8, 1, 3, 6, 7, 9, 8, 2, 4, 5, 3, 7, 2, 6, 8, 9, 5, 1, 4, 8, 1, 4, 2, 5, 3, 7, 6, 9, 6, 9, 5, 4, 1, 7, 3, 8, 2]
def cB153 : Board := natsToBoard [4, 8, 3, 9, 2, 1, 6, 5, 7, 9, 6, 7, 3, 4, 5, 8, 2, 1, 2, 5, 1, 8, 7, 6, 4, 9, 3, 5, 4, 8, 1, 3, 2, 9, 7, 6, 7, 2, 9, 5, 6, 4, 1, 3, 8, 1, 3, 6, 7, 9, 8, 2, 4, 5, 3, 7, 2, 6, 8, 9, 5, 1, 4, 8, 1, 4, 2, 5, 3, 7, 6, 9, 6, 9, 5, 4, 1, 7, 3, 8, 2]
def cB154 : Board := natsToBoard [4, 8, 3, 9, 2, 1, 6, 5, 7, 9, 6, 7, 3, 4, 5, 8, 2, 1, 2, 5, 1, 8, 7, 6, 4, 9, 3, 5, 4, 8, 1, 3, 2, 9, 7, 6, 7, 2, 9, 5, 6, 4, 1, 3, 8, 1, 3, 6, 7, 9, 8, 2, 4, 5, 3, 7, 2, 6, 8, 9, 5, 1, 4, 8, 1, 4, 2, 5, 3, 7, 6, 9, 6, 9, 5, 4, 1, 7, 3, 8, 2]
def cB155 : Board := natsToBoard [4, 8, 3, 9, 2, 1, 6, 5, 7, 9, 6, 7, 3, 4, 5, 8, 2, 1, 2, 5, 1, 8, 7, 6, 4, 9, 3, 5, 4, 8, 1, 3, 2, 9, 7, 6, 7, 2, 9, 5, 6, 4, 1, 3, 8, 1, 3, 6, 7, 9, 8, 2, 4, 5, 3, 7, 2, 6, 8, 9, 5, 1, 4, 8, 1, 4, 2, 5, 3, 7, 6, 9, 6, 9, 5, 4, 1, 7, 3, 8, 2]
def cB156 : Board := natsToBoard [4, 8, 3, 9, 2, 1, 6, 5, 7, 9, 6, 7, 3, 4, 5, 8, 2, 1, 2, 5, 1, 8, 7, 6, 4, 9, 3, 5, 4, 8, 1, 3, 2, 9, 7, 6, 7, 2, 9, 5, 6, 4, 1, 3, 8, 1, 3, 6, 7, 9, 8, 2, 4, 5, 3, 7, 2, 6, 8, 9, 5, 1, 4, 8, 1, 4, 2, 5, 3, 7, 6, 9, 6, 9, 5, 4, 1, 7, 3, 8, 2]
def cB157 : Board := natsToBoard [4, 8, 3, 9, 2, 1, 6, 5, 7, 9, 6, 7, 3, 4, 5, 8, 2, 1, 2, 5, 1, 8, 7, 6, 4, 9, 3, 5, 4, 8, 1, 3, 2, 9, 7, 6, 7, 2, 9, 5, 6, 4, 1, 3, 8, 1, 3, 6, 7, 9, 8, 2, 4, 5, 3, 7, 2, 6, 8, 9, 5, 1, 4, 8, 1, 4, 2, 5, 3, 7, 6, 9, 6, 9, 5, 4, 1, 7, 3, 8, 2]
def cB158 : Board := natsToBoard [4, 8, 3, 9, 2, 1, 6, 5, 7, 9, 6, 7, 3, 4, 5, 8, 2, 1, 2, 5, 1, 8, 7, 6, 4, 9, 3, 5, 4, 8, 1, 3, 2, 9, 7, 6, 7, 2, 9, 5, 6, 4, 1, 3, 8, 1, 3, 6, 7, 9, 8, 2, 4, 5, 3, 7, 2, 6, 8, 9, 5, 1, 4, 8, 1, 4, 2, 5, 3, 7, 6, 9, 6, 9, 5, 4, 1, 7, 3, 8, 2]
def cB159 : Board := natsToBoard [4, 8, 3, 9, 2, 1, 6, 5, 7, 9, 6, 7, 3, 4, 5, 8, 2, 1, 2, 5, 1, 8, 7, 6, 4, 9, 3, 5, 4, 8, 1, 3, 2, 9, 7, 6, 7, 2, 9, 5, 6, 4, 1, 3, 8, 1, 3, 6, 7, 9, 8, 2, 4, 5, 3, 7, 2, 6, 8, 9, 5, 1, 4, 8, 1, 4, 2, 5, 3, 7, 6, 9, 6, 9, 5, 4, 1, 7, 3, 8, 2]
def cB160 : Board := natsToBoard [4, 8, 3, 9, 2, 1, 6, 5, 7, 9, 6, 7, 3, 4, 5, 8, 2, 1, 2, 5, 1, 8, 7, 6, 4, 9, 3, 5, 4, 8, 1, 3, 2, 9, 7, 6, 7, 2, 9, 5, 6, 4, 1, 3, 8, 1, 3, 6, 7, 9, 8, 2, 4, 5, 3, 7, 2, 6, 8, 9, 5, 1, 4, 8, 1, 4, 2, 5, 3, 7, 6, 9, 6, 9, 5, 4, 1, 7, 3, 8, 2]
def cB161 : Board := natsToBoard [4, 8, 3, 9, 2, 1, 6, 5, 7, 9, 6, 7, 3, 4, 5, 8, 2, 1, 2, 5, 1, 8, 7, 6, 4, 9, 3, 5, 4, 8, 1, 3, 2, 9, 7, 6, 7, 2, 9, 5, 6, 4, 1, 3, 8, 1, 3, 6, 7, 9, 8, 2, 4, 5, 3, 7, 2, 6, 8, 9, 5, 1, 4, 8, 1, 4, 2, 5, 3, 7, 6, 9, 6, 9, 5, 4, 1, 7, 3, 8, 2]
def cB162 : Board := natsToBoard [4, 8, 3, 9, 2, 1, 6, 5, 7, 9, 6, 7, 3, 4, 5, 8, 2, 1, 2, 5, 1, 8, 7, 6, 4, 9, 3, 5, 4, 8, 1, 3, 2, 9, 7, 6, 7, 2, 9, 5, 6, 4, 1, 3, 8, 1, 3, 6, 7, 9, 8, 2, 4, 5, 3, 7, 2, 6, 8, 9, 5, 1, 4, 8, 1, 4, 2, 5, 3, 7, 6, 9, 6, 9, 5, 4, 1, 7, 3, 8, 2]

/-! ## Theorems -/

/-- Helper: erasing the first occurrence of `v` empties a list exactly
when the list was empty or the singleton `[v]`. -/
theorem erase_eq_nil_iff (values : List Nat) (v : Nat) :
    values.erase v = [] ↔ (values = [] ∨ values = [v]) := by
  cases values with
  | nil => simp
  | cons x xs =>
      rw [List.erase_cons]
      by_cases hx : x = v
      · simp [hx]
      · simp [hx, beq_iff_eq]

/-- C1 (amended): when an elimination would empty a candidate list —
exactly when the list was empty or held only the eliminated digit — the
code panics via `assert!` (modelled `none`): a loud failure, not a
silent skip, but a process abort rather than a recoverable error value;
a `Value` cell is never affected. -/
theorem eliminate_contradiction_panics :
    (∀ (values : List Nat) (v : Nat),
      SudokuCell.eliminate (Cell.possibly values) v = none ↔
        (values = [] ∨ values = [v])) ∧
    (∀ (d v : Nat), SudokuCell.eliminate (Cell.value d) v = some (Cell.value d)) := by
  constructor
  · intro values v
    rw [← erase_eq_nil_iff values v]
    simp only [SudokuCell.eliminate]
    by_cases h : values.erase v = []
    · simp [h]
    · simp only [h, if_false]
      by_cases h1 : (values.erase v).length = 1 <;> simp [h1, h]
  · intro d v
    rfl

/-- C1 witness: at `Possibly [5]`, eliminating `5` is the panic. -/
theorem eliminate_contradiction_panics_witness :
    SudokuCell.eliminate (Cell.possibly [5]) 5 = none :=
  (eliminate_contradiction_panics.1 [5] 5).mpr (Or.inr rfl)

/-- C1 counterexample to the claim as stated: eliminating the sole
remaining candidate does not surface a recoverable, inspectable failure
— the code's `eliminate` has no error result at all; at this input it
panics (`assert!`), modelled as `none`, so no successor cell state
exists for the caller to inspect. -/
theorem eliminate_sole_candidate_aborts :
    SudokuCell.eliminate (Cell.possibly [5]) 5 = none ∧
    ∀ c : SudokuCell, SudokuCell.eliminate (Cell.possibly [5]) 5 ≠ some c := by
  refine ⟨rfl, ?_⟩
  intro c h
  rw [show SudokuCell.eliminate (Cell.possibly [5]) 5 = none from rfl] at h
  cases h

/-- C5: the three group-index functions produce exactly the index sets
the spec describes (rows `r*9+c`, columns `r*9+c`, boxes laid out from
`base_row = b % 3`, `base_col = b / 3`), and the nine boxes are pairwise
disjoint and cover all 81 cells. -/
theorem group_indices_spec :
    (∀ r, r < 9 → Sudoku.row_indices r =
      (List.range 9).map (fun c => r * 9 + c)) ∧
    (∀ c, c < 9 → Sudoku.column_indices c =
      (List.range 9).map (fun r => r * 9 + c)) ∧
    (∀ b, b < 9 → Sudoku.box_indices b =
      (List.range 3).flatMap (fun row => (List.range 3).map
        (fun col => (b % 3 * 3 + row) * 9 + (b / 3 * 3 + col)))) ∧
    (∀ b₁, b₁ < 9 → ∀ b₂, b₂ < 9 → b₁ ≠ b₂ →
      ∀ i ∈ Sudoku.box_indices b₁, i ∉ Sudoku.box_indices b₂) ∧
    (∀ i, i < 81 → ∃ b, b < 9 ∧ i ∈ Sudoku.box_indices b) := by
  refine ⟨by decide, by decide, by decide, ?_, by decide⟩
  intro b₁ hb₁ b₂ hb₂ hne
  interval_cases b₁ <;> interval_cases b₂ <;>
    first | exact absurd rfl hne | decide

/-- C5 witness: the formulas instantiated at row 0, column 0, boxes 1 ≠ 2,
and cell index 80. -/
theorem group_indices_spec_witness :
    Sudoku.row_indices 0 = (List.range 9).map (fun c => 0 * 9 + c) ∧
    (∀ i ∈ Sudoku.box_indices 1, i ∉ Sudoku.box_indices 2) ∧
    (∃ b, b < 9 ∧ 80 ∈ Sudoku.box_indices b) :=
  ⟨group_indices_spec.1 0 (by decide),
   group_indices_spec.2.2.2.1 1 (by decide) 2 (by decide) (by decide),
   group_indices_spec.2.2.2.2 80 (by decide)⟩

/-- C7: `solve_constraint` first collects, from the board as it stands
on entry, exactly the digits of the `Value` cells among the given
indices (in index order); only then does it run the elimination loops,
in which `eliminate` is a no-op on `Value` cells.  It is a single pass:
on `onePassBoard`, cell 6 becomes `Value 7` during the pass, yet `7` is
not collected and cell 7 still holds candidate `7` afterwards. -/
theorem solve_constraint_one_pass :
    (∀ (board : Board) (indices : List Nat),
      (∀ i ∈ indices, i < board.length) →
      Sudoku.collectValues board indices =
        some (indices.filterMap fun idx =>
          Cell.get (board.getD idx (Cell.possibly [])))) ∧
    (∀ (board : Board) (indices : List Nat),
      Sudoku.solve_constraint board indices =
        match Sudoku.collectValues board indices with
        | none => none
        | some values => Sudoku.eliminateValues board indices values) ∧
    (∀ (d v : Nat), SudokuCell.eliminate (Cell.value d) v = some (Cell.value d)) ∧
    (Sudoku.solve_constraint onePassBoard (Sudoku.row_indices 0) =
        some onePassResult ∧
      onePassResult[6]? = some (Cell.value 7) ∧
      onePassResult[7]? = some (Cell.possibly [7, 8, 9])) := by
  refine ⟨?_, fun _ _ => rfl, fun _ _ => rfl, by decide, by decide, by decide⟩
  intro board indices h
  induction indices with
  | nil => rfl
  | cons idx rest ih =>
      have hidx : idx < board.length := h idx (by simp)
      have hD : board.getD idx (Cell.possibly []) = board[idx] := by
        simp [List.getD_eq_getElem?_getD, List.getElem?_eq_getElem hidx]
      simp only [Sudoku.collectValues, List.get?_eq_getElem?,
        List.getElem?_eq_getElem hidx,
        ih (fun i hi => h i (List.mem_cons_of_mem idx hi)),
        List.filterMap_cons, hD]
      cases Cell.get board[idx] <;> rfl

/-- C7 witness: the collected digits of a one-cell group on a one-cell
board. -/
theorem solve_constraint_one_pass_witness :
    Sudoku.collectValues ([Cell.value 3] : Board) [0] =
      some (List.filterMap
        (fun idx => Cell.get (List.getD ([Cell.value 3] : Board) idx
          (Cell.possibly [])))
        [0]) :=
  solve_constraint_one_pass.1 ([Cell.value 3] : Board) [0] (by decide)

/-- Helper: the all-placeholder board is unchanged by one round (no cell
is fixed, so nothing is collected or eliminated). -/
theorem step_new : Sudoku.step Sudoku.new = some Sudoku.new := by decide

/-- Helper: the all-placeholder board is not finished. -/
theorem finished_new : Sudoku.finished Sudoku.new = false := by decide

/-- C9: if one application of `step` changes no cell, any number of
further applications leaves every cell unchanged. -/
theorem step_fixed_point_idempotent :
    ∀ (b : Board), Sudoku.step b = some b → ∀ n, stepIter n b = some b := by
  intro b h n
  induction n with
  | zero => rfl
  | succ n ih => simp only [stepIter, h, ih]

/-- C9 witness: the all-placeholder board is a `step` fixed point and
stays unchanged under three further rounds. -/
theorem step_fixed_point_idempotent_witness :
    stepIter 3 Sudoku.new = some Sudoku.new :=
  step_fixed_point_idempotent Sudoku.new step_new 3

/-- Helper: on a stalled fixed point that is not finished, the `solve`
loop runs its whole budget and returns the board unchanged. -/
theorem solveLoop_stall {b : Board} (hf : Sudoku.finished b = false)
    (hs : Sudoku.step b = some b) : ∀ r, Sudoku.solveLoop b r = some b := by
  intro r
  induction r with
  | zero =>
      conv_lhs => rw [Sudoku.solveLoop]
      simp [hf, hs]
  | succ r ih =>
      conv_lhs => rw [Sudoku.solveLoop]
      simp [hf, hs, ih]

/-- Helper: a run of the `solve` loop with budget `r` is some `n ≤ r + 1`
rounds of `step`, ending finished or with the budget exhausted. -/
theorem solveLoop_bound : ∀ (r : Nat) (b b' : Board),
    Sudoku.solveLoop b r = some b' →
    ∃ n, n ≤ r + 1 ∧ stepIter n b = some b' ∧
      (Sudoku.finished b' = true ∨ n = r + 1) := by
  intro r
  induction r with
  | zero =>
      intro b b' h
      rw [Sudoku.solveLoop] at h
      cases hfb : Sudoku.finished b with
      | true =>
          simp only [hfb, if_true, Option.some.injEq] at h
          exact ⟨0, by omega, by rw [h] at hfb ⊢; rfl, Or.inl (h ▸ hfb)⟩
      | false =>
          simp only [hfb, Bool.false_eq_true, if_false] at h
          cases hs : Sudoku.step b with
          | none => simp [hs] at h
          | some b₂ =>
              simp only [hs, Option.some.injEq] at h
              exact ⟨1, by omega, by subst h; simp [stepIter, hs], Or.inr rfl⟩
  | succ r ih =>
      intro b b' h
      rw [Sudoku.solveLoop] at h
      cases hfb : Sudoku.finished b with
      | true =>
          simp only [hfb, if_true, Option.some.injEq] at h
          exact ⟨0, by omega, by rw [h] at hfb ⊢; rfl, Or.inl (h ▸ hfb)⟩
      | false =>
          simp only [hfb, Bool.false_eq_true, if_false] at h
          cases hs : Sudoku.step b with
          | none => simp [hs] at h
          | some b₂ =>
              simp only [hs] at h
              obtain ⟨n, hn, hit, hor⟩ := ih b₂ b' h
              refine ⟨n + 1, by omega, ?_, ?_⟩
              · simp only [stepIter, hs, hit]
              · cases hor with
                | inl hf => exact Or.inl hf
                | inr he => exact Or.inr (by omega)

/-- C4: a successful `solve` is at most 82 rounds of `step` (one more
than the cell count), ending either with every cell fixed or with the
round limit reached; on the all-placeholder board it runs the full
budget, returns the board unchanged and does not report it finished. -/
theorem solve_round_bound :
    (∀ (b b' : Board), Sudoku.solve b = some b' →
      ∃ n, n ≤ 82 ∧ stepIter n b = some b' ∧
        (Sudoku.finished b' = true ∨ n = 82)) ∧
    (Sudoku.solve Sudoku.new = some Sudoku.new ∧
      Sudoku.finished Sudoku.new = false) := by
  refine ⟨fun b b' h => solveLoop_bound 81 b b' h, ?_, finished_new⟩
  exact solveLoop_stall finished_new step_new 81

/-- C4 witness: the bound instantiated on the all-placeholder board. -/
theorem solve_round_bound_witness :
    ∃ n, n ≤ 82 ∧ stepIter n Sudoku.new = some Sudoku.new ∧
      (Sudoku.finished Sudoku.new = true ∨ n = 82) :=
  solve_round_bound.1 Sudoku.new Sudoku.new solve_round_bound.2.1
/-- Helper: `cellLE` is reflexive. -/
theorem cellLE_refl (c : SudokuCell) : cellLE c c := by
  cases c with
  | value v => rfl
  | possibly s => exact fun x hx => hx

/-- Helper: `cellLE` is transitive. -/
theorem cellLE_trans {a b c : SudokuCell} (h₁ : cellLE a b) (h₂ : cellLE b c) :
    cellLE a c := by
  cases a <;> cases b <;> cases c <;>
    simp only [cellLE] at h₁ h₂ ⊢
  · exact h₁.trans h₂
  · exact h₁ ▸ h₂
  · exact h₂ h₁
  · exact fun x hx => h₂ (h₁ hx)

/-- Helper: one `eliminate` only refines a cell. -/
theorem eliminate_le {c c' : SudokuCell} {v : Nat}
    (h : SudokuCell.eliminate c v = some c') : cellLE c' c := by
  cases c with
  | value d =>
      simp only [SudokuCell.eliminate, Option.some.injEq] at h
      exact h ▸ rfl
  | possibly s =>
      simp only [SudokuCell.eliminate] at h
      cases he : (s.erase v).isEmpty with
      | true => rw [he] at h; simp at h
      | false =>
          rw [he] at h
          simp only [Bool.false_eq_true, if_false] at h
          by_cases hl : (s.erase v).length = 1
          · rw [if_pos hl] at h
            simp only [Option.some.injEq] at h
            subst h
            show (s.erase v).headD 0 ∈ s
            apply List.erase_subset
            cases hsv : s.erase v with
            | nil => rw [hsv] at he; simp at he
            | cons x rest => simp
          · rw [if_neg hl] at h
            simp only [Option.some.injEq] at h
            subst h
            exact fun x hx => List.erase_subset _ _ hx
/-- Helper: pointwise `cellLE` is reflexive. -/
theorem boardLE_refl (b : Board) : List.Forall₂ cellLE b b := by
  induction b with
  | nil => exact List.Forall₂.nil
  | cons c rest ih => exact List.Forall₂.cons (cellLE_refl c) ih

/-- Helper: pointwise `cellLE` is transitive. -/
theorem boardLE_trans {a b c : Board} (h₁ : List.Forall₂ cellLE a b)
    (h₂ : List.Forall₂ cellLE b c) : List.Forall₂ cellLE a c := by
  induction h₁ generalizing c with
  | nil => cases h₂; exact List.Forall₂.nil
  | cons hab h ih =>
      cases h₂ with
      | cons hbc h' => exact List.Forall₂.cons (cellLE_trans hab hbc) (ih h')

/-- Helper: overwriting one slot with a refinement of its content
refines the board pointwise. -/
theorem boardLE_set {b : Board} {idx : Nat} {cell c' : SudokuCell}
    (hget : List.get? b idx = some cell) (hle : cellLE c' cell) :
    List.Forall₂ cellLE (b.set idx c') b := by
  induction b generalizing idx with
  | nil => simp [List.get?] at hget
  | cons c rest ih =>
      cases idx with
      | zero =>
          simp only [List.get?, Option.some.injEq] at hget
          subst hget
          exact List.Forall₂.cons hle (boardLE_refl rest)
      | succ n =>
          simp only [List.get?] at hget
          exact List.Forall₂.cons (cellLE_refl c) (ih hget)

/-- Helper: one in-place elimination refines the board pointwise. -/
theorem eliminateAt_mono {b b' : Board} {idx v : Nat}
    (h : Sudoku.eliminateAt b idx v = some b') : List.Forall₂ cellLE b' b := by
  simp only [Sudoku.eliminateAt] at h
  cases hg : List.get? b idx with
  | none => rw [hg] at h; cases h
  | some cell =>
      simp only [hg] at h
      cases he : cell.eliminate v with
      | none => simp only [he] at h; cases h
      | some c' =>
          simp only [he, Option.some.injEq] at h
          subst h
          exact boardLE_set hg (eliminate_le he)

/-- Helper: the inner elimination loop refines the board pointwise. -/
theorem eliminateIndices_mono {indices : List Nat} {v : Nat} :
    ∀ {b b' : Board}, Sudoku.eliminateIndices b indices v = some b' →
    List.Forall₂ cellLE b' b := by
  induction indices with
  | nil => intro b b' h; cases h; exact boardLE_refl _
  | cons idx rest ih =>
      intro b b' h
      simp only [Sudoku.eliminateIndices] at h
      cases ha : Sudoku.eliminateAt b idx v with
      | none => rw [ha] at h; cases h
      | some b₂ =>
          rw [ha] at h
          exact boardLE_trans (ih h) (eliminateAt_mono ha)

/-- Helper: the outer elimination loop refines the board pointwise. -/
theorem eliminateValues_mono {indices : List Nat} {values : List Nat} :
    ∀ {b b' : Board}, Sudoku.eliminateValues b indices values = some b' →
    List.Forall₂ cellLE b' b := by
  induction values with
  | nil => intro b b' h; cases h; exact boardLE_refl _
  | cons v rest ih =>
      intro b b' h
      simp only [Sudoku.eliminateValues] at h
      cases hv : Sudoku.eliminateIndices b indices v with
      | none => rw [hv] at h; cases h
      | some b₂ =>
          rw [hv] at h
          exact boardLE_trans (ih h) (eliminateIndices_mono hv)

/-- Helper: one constraint pass refines the board pointwise. -/
theorem solve_constraint_mono {b b' : Board} {g : List Nat}
    (h : Sudoku.solve_constraint b g = some b') : List.Forall₂ cellLE b' b := by
  simp only [Sudoku.solve_constraint] at h
  cases hc : Sudoku.collectValues b g with
  | none => rw [hc] at h; cases h
  | some values => rw [hc] at h; exact eliminateValues_mono h

/-- Helper: a sequence of constraint passes refines the board pointwise. -/
theorem solveGroups_mono {groups : List (List Nat)} :
    ∀ {b b' : Board}, Sudoku.solveGroups b groups = some b' →
    List.Forall₂ cellLE b' b := by
  induction groups with
  | nil => intro b b' h; cases h; exact boardLE_refl _
  | cons g rest ih =>
      intro b b' h
      simp only [Sudoku.solveGroups] at h
      cases hg : Sudoku.solve_constraint b g with
      | none => rw [hg] at h; cases h
      | some b₂ =>
          rw [hg] at h
          exact boardLE_trans (ih h) (solve_constraint_mono hg)

/-- Helper: one whole round refines the board pointwise. -/
theorem step_mono {b b' : Board} (h : Sudoku.step b = some b') :
    List.Forall₂ cellLE b' b := by
  simp only [Sudoku.step, Sudoku.solve_rows, Sudoku.solve_columns,
    Sudoku.solve_boxes] at h
  cases h₁ : Sudoku.solveGroups b ((List.range 9).map Sudoku.row_indices) with
  | none => rw [h₁] at h; cases h
  | some b₁ =>
      simp only [h₁] at h
      cases h₂ : Sudoku.solveGroups b₁ ((List.range 9).map Sudoku.column_indices) with
      | none => simp only [h₂] at h; cases h
      | some b₂ =>
          simp only [h₂] at h
          exact boardLE_trans (boardLE_trans (solveGroups_mono h)
            (solveGroups_mono h₂)) (solveGroups_mono h₁)

/-- Helper: any number of rounds refines the board pointwise. -/
theorem stepIter_mono {n : Nat} : ∀ {b b' : Board},
    stepIter n b = some b' → List.Forall₂ cellLE b' b := by
  induction n with
  | zero => intro b b' h; cases h; exact boardLE_refl _
  | succ n ih =>
      intro b b' h
      simp only [stepIter] at h
      cases hs : Sudoku.step b with
      | none => rw [hs] at h; cases h
      | some b₂ =>
          rw [hs] at h
          exact boardLE_trans (ih h) (step_mono hs)

/-- C3: propagation is monotone — after one round (and hence after any
number of rounds) every cell is a `cellLE`-refinement of what it was: a
`Value` cell keeps its digit, a `Candidates` cell's list only shrinks or
is promoted to a `Value` drawn from its former candidates. -/
theorem step_monotone :
    (∀ (b b' : Board), Sudoku.step b = some b' → List.Forall₂ cellLE b' b) ∧
    (∀ (n : Nat) (b b' : Board), stepIter n b = some b' →
      List.Forall₂ cellLE b' b) :=
  ⟨fun _ _ h => step_mono h, fun _ _ _ h => stepIter_mono h⟩

/-- C3 witness: one round on the all-placeholder board refines it. -/
theorem step_monotone_witness : List.Forall₂ cellLE Sudoku.new Sudoku.new :=
  step_monotone.1 Sudoku.new Sudoku.new step_new
/-- Helper: the parse fill loop preserves the board length. -/
theorem fillCells_length : ∀ (cs : List Char) (board : Board) (idx : Nat)
    (b' : Board), Sudoku.fillCells board idx cs = some b' →
    b'.length = board.length := by
  intro cs
  induction cs with
  | nil => intro board idx b' h; cases h; rfl
  | cons c rest ih =>
      intro board idx b' h
      simp only [Sudoku.fillCells] at h
      by_cases hd : '1' ≤ c ∧ c ≤ '9'
      · rw [if_pos hd] at h
        cases hp : u8FromChars [c] with
        | none => rw [hp] at h; cases h
        | some v =>
            simp only [hp] at h
            rw [ih _ _ _ h, List.length_set]
      · rw [if_neg hd] at h
        exact ih _ _ _ h

/-- Helper: a successfully parsed board has exactly 81 cells. -/
theorem tryFrom_length {s : List Char} {b : Board}
    (h : Sudoku.tryFrom s = Except.ok b) : b.length = 81 := by
  simp only [Sudoku.tryFrom] at h
  by_cases hl : (cleanInput s).length ≠ 81
  · rw [if_pos hl] at h; cases h
  · rw [if_neg hl] at h
    cases hf : Sudoku.fillCells Sudoku.new 0 (cleanInput s) with
    | none => rw [hf] at h; cases h
    | some b₂ =>
        simp only [hf, Except.ok.injEq] at h
        subst h
        rw [fillCells_length _ _ _ _ hf]
        rfl

/-- Helper: a run of the `solve` loop preserves the board length. -/
theorem solveLoop_length : ∀ (r : Nat) {b b' : Board},
    Sudoku.solveLoop b r = some b' → b'.length = b.length := by
  intro r
  induction r with
  | zero =>
      intro b b' h
      rw [Sudoku.solveLoop] at h
      cases hf : Sudoku.finished b with
      | true => simp only [hf, if_true, Option.some.injEq] at h; rw [← h]
      | false =>
          simp only [hf, Bool.false_eq_true, if_false] at h
          cases hs : Sudoku.step b with
          | none => rw [hs] at h; cases h
          | some b₂ =>
              simp only [hs, Option.some.injEq] at h
              rw [← h]
              exact (step_mono hs).length_eq
  | succ r ih =>
      intro b b' h
      rw [Sudoku.solveLoop] at h
      cases hf : Sudoku.finished b with
      | true => simp only [hf, if_true, Option.some.injEq] at h; rw [← h]
      | false =>
          simp only [hf, Bool.false_eq_true, if_false] at h
          cases hs : Sudoku.step b with
          | none => rw [hs] at h; cases h
          | some b₂ =>
              simp only [hs] at h
              rw [ih h, (step_mono hs).length_eq]

/-- C10: every group index is below 81; `new`, parsing, `step` and
`solve` all produce 81-cell boards; and indexing an 81-cell board at any
index below 81 cannot fail, so `solve_constraint`'s `board[idx]`
accesses never panic with an out-of-range index. -/
theorem index_safety :
    (∀ r, r < 9 → ∀ i ∈ Sudoku.row_indices r, i < 81) ∧
    (∀ c, c < 9 → ∀ i ∈ Sudoku.column_indices c, i < 81) ∧
    (∀ b, b < 9 → ∀ i ∈ Sudoku.box_indices b, i < 81) ∧
    Sudoku.new.length = 81 ∧
    (∀ (s : List Char) (b : Board), Sudoku.tryFrom s = Except.ok b →
      b.length = 81) ∧
    (∀ (b b' : Board), Sudoku.step b = some b' → b'.length = b.length) ∧
    (∀ (b b' : Board), Sudoku.solve b = some b' → b'.length = b.length) ∧
    (∀ (b : Board), b.length = 81 → ∀ i, i < 81 →
      (List.get? b i).isSome = true) := by
  refine ⟨by decide, by decide, by decide, by decide,
    fun _ _ h => tryFrom_length h,
    fun _ _ h => (step_mono h).length_eq,
    fun _ _ h => solveLoop_length 81 h, ?_⟩
  intro b hb i hi
  cases hg : List.get? b i with
  | some c => rfl
  | none =>
      have := List.get?_eq_none.mp hg
      omega

/-- C10 witness: the bounds instantiated at row 0 and slot 80 of a fresh
board. -/
theorem index_safety_witness :
    (∀ i ∈ Sudoku.row_indices 0, i < 81) ∧
    (List.get? Sudoku.new 80).isSome = true :=
  ⟨index_safety.1 0 (by decide),
   index_safety.2.2.2.2.2.2.2 Sudoku.new (by decide) 80 (by decide)⟩
/-- Helper: parsing a single character in `'1'..='9'` always succeeds
and yields its digit value. -/
theorem u8FromChars_digit {c : Char} (h1 : '1' ≤ c) (h9 : c ≤ '9') :
    u8FromChars [c] = some (c.toNat - 48) := by
  rw [Char.le_def] at h1 h9
  have h1' : (49 : Nat) ≤ c.toNat := h1
  have h9' : c.toNat ≤ 57 := h9
  have hd : c.isDigit = true := by
    unfold Char.isDigit
    simp only [Bool.and_eq_true, decide_eq_true_eq, ge_iff_le, UInt32.le_def]
    constructor
    · show (48 : Nat) ≤ c.toNat
      omega
    · show c.toNat ≤ 57
      omega
  have hcond : ([c] ≠ [] ∧ ([c].all Char.isDigit) = true) := ⟨by simp, by simp [hd]⟩
  simp only [u8FromChars]
  rw [if_pos hcond]
  simp only [List.foldl, Nat.zero_mul, Nat.zero_add]
  rw [if_pos (by omega)]

/-- Helper: the fill loop never hits the parse-failure branch. -/
theorem fillCells_ne_none : ∀ (cs : List Char) (board : Board) (idx : Nat),
    Sudoku.fillCells board idx cs ≠ none := by
  intro cs
  induction cs with
  | nil => intro board idx h; cases h
  | cons c rest ih =>
      intro board idx h
      simp only [Sudoku.fillCells] at h
      by_cases hd : '1' ≤ c ∧ c ≤ '9'
      · rw [if_pos hd, u8FromChars_digit hd.1 hd.2] at h
        exact ih _ _ h
      · rw [if_neg hd] at h
        exact ih _ _ h

/-- C6 (amended): construction fails with the parse error exactly when
the code's cleaning — which removes line breaks and each line's leading
and trailing whitespace, but keeps interior whitespace — leaves a string
whose length is not 81; on failure no board is produced. -/
theorem parse_fails_iff :
    ∀ (s : List Char), Sudoku.tryFrom s = Except.error () ↔
      (cleanInput s).length ≠ 81 := by
  intro s
  constructor
  · intro h
    by_cases hl : (cleanInput s).length ≠ 81
    · exact hl
    · exfalso
      simp only [Sudoku.tryFrom, if_neg hl] at h
      cases hf : Sudoku.fillCells Sudoku.new 0 (cleanInput s) with
      | none => exact fillCells_ne_none _ _ _ hf
      | some b => rw [hf] at h; cases h
  · intro hl
    simp only [Sudoku.tryFrom, if_pos hl]

/-- C6 witness: a one-character input is rejected. -/
theorem parse_fails_iff_witness : Sudoku.tryFrom ['1'] = Except.error () :=
  (parse_fails_iff ['1']).mpr (by decide)

/-- C6 counterexample to the claim as stated: 81 digit characters with
one interior space.  Discarding *all* whitespace leaves exactly 81
characters, so the claim predicts acceptance — but the code keeps the
interior space (its cleaned length is 82) and rejects the input. -/
theorem parse_inner_whitespace_not_discarded :
    Sudoku.tryFrom interiorSpaceInput = Except.error () ∧
    (specClean interiorSpaceInput).length = 81 ∧
    (cleanInput interiorSpaceInput).length = 82 := by
  refine ⟨by decide, by decide, by decide⟩

/-- Helper: the fill loop never touches slots below its write cursor. -/
theorem fillCells_get_lt : ∀ (cs : List Char) (board : Board) (idx j : Nat)
    (b' : Board), j < idx → Sudoku.fillCells board idx cs = some b' →
    List.get? b' j = List.get? board j := by
  intro cs
  induction cs with
  | nil => intro board idx j b' hj h; cases h; rfl
  | cons c rest ih =>
      intro board idx j b' hj h
      simp only [Sudoku.fillCells] at h
      by_cases hd : '1' ≤ c ∧ c ≤ '9'
      · rw [if_pos hd, u8FromChars_digit hd.1 hd.2] at h
        rw [ih _ _ _ _ (by omega) h]
        exact List.get?_set_ne _ _ (by omega)
      · rw [if_neg hd] at h
        exact ih _ _ _ _ (by omega) h

/-- Helper: slot `idx + k` after the fill loop holds the parsed digit
cell when character `k` is in `'1'..='9'`, and is untouched otherwise. -/
theorem fillCells_get : ∀ (cs : List Char) (board : Board) (idx k : Nat)
    (b' : Board), k < cs.length → idx + cs.length ≤ board.length →
    Sudoku.fillCells board idx cs = some b' →
    List.get? b' (idx + k) =
      (if '1' ≤ cs.getD k ' ' ∧ cs.getD k ' ' ≤ '9'
        then some (Cell.value ((cs.getD k ' ').toNat - 48))
        else List.get? board (idx + k)) := by
  intro cs
  induction cs with
  | nil => intro board idx k b' hk; simp at hk
  | cons c rest ih =>
      intro board idx k b' hk hlen h
      simp only [Sudoku.fillCells] at h
      have hlen' : idx < board.length ∧ (idx + 1) + rest.length ≤ board.length := by
        simp only [List.length_cons] at hlen
        omega
      cases k with
      | zero =>
          simp only [List.getD_cons_zero, Nat.add_zero]
          by_cases hd : '1' ≤ c ∧ c ≤ '9'
          · rw [if_pos hd]
            rw [if_pos hd, u8FromChars_digit hd.1 hd.2] at h
            rw [fillCells_get_lt rest _ _ _ _ (by omega) h]
            exact List.get?_set_eq_of_lt _ hlen'.1
          · rw [if_neg hd]
            rw [if_neg hd] at h
            rw [fillCells_get_lt rest _ _ _ _ (by omega) h]
      | succ k' =>
          have hk' : k' < rest.length := by
            simp only [List.length_cons] at hk
            omega
          have harith : idx + (k' + 1) = (idx + 1) + k' := by omega
          simp only [List.getD_cons_succ]
          by_cases hd : '1' ≤ c ∧ c ≤ '9'
          · rw [if_pos hd, u8FromChars_digit hd.1 hd.2] at h
            rw [harith, ih _ _ _ _ hk' (by rw [List.length_set]; omega) h]
            by_cases hd2 : '1' ≤ rest.getD k' ' ' ∧ rest.getD k' ' ' ≤ '9'
            · rw [if_pos hd2, if_pos hd2]
            · rw [if_neg hd2, if_neg hd2, ← harith]
              exact List.get?_set_ne _ _ (by omega)
          · rw [if_neg hd] at h
            rw [harith, ih _ _ _ _ hk' (by omega) h, ← harith]

/-- C8: a validated input maps character `i` to cell `i` — a character
in `'1'..='9'` yields `Value` of that digit, anything else leaves the
fresh `Possibly {1,…,9}` cell — and validation passing (cleaned length
81) guarantees a board is produced, i.e. the digit-parse failure branch
never fires. -/
theorem parse_cell_mapping :
    (∀ (s : List Char) (b : Board), Sudoku.tryFrom s = Except.ok b →
      ∀ i, i < 81 →
        List.get? b i =
          (if '1' ≤ (cleanInput s).getD i ' ' ∧ (cleanInput s).getD i ' ' ≤ '9'
            then some (Cell.value (((cleanInput s).getD i ' ').toNat - 48))
            else some (Cell.possibly SudokuCell.all))) ∧
    (∀ (s : List Char), (cleanInput s).length = 81 →
      ∃ b, Sudoku.tryFrom s = Except.ok b) := by
  constructor
  · intro s b h i hi
    have hl : ¬ (cleanInput s).length ≠ 81 := by
      intro hl
      simp only [Sudoku.tryFrom, if_pos hl] at h
      exact Except.noConfusion h
    have hlen81 : (cleanInput s).length = 81 := not_not.mp hl
    simp only [Sudoku.tryFrom, if_neg hl] at h
    cases hf : Sudoku.fillCells Sudoku.new 0 (cleanInput s) with
    | none => rw [hf] at h; cases h
    | some b₂ =>
        rw [hf] at h
        simp only [Except.ok.injEq] at h
        subst h
        have hfg := fillCells_get (cleanInput s) Sudoku.new 0 i b₂
          (by omega) (by rw [hlen81]; rfl) hf
        rw [Nat.zero_add] at hfg
        rw [hfg]
        by_cases hd : '1' ≤ (cleanInput s).getD i ' ' ∧ (cleanInput s).getD i ' ' ≤ '9'
        · rw [if_pos hd, if_pos hd]
        · rw [if_neg hd, if_neg hd]
          show (List.replicate 81 (Cell.possibly SudokuCell.all)).get? i = _
          rw [List.get?_eq_getElem?, List.getElem?_replicate]
          simp [hi]
  · intro s hl
    have hl' : ¬ (cleanInput s).length ≠ 81 := by omega
    simp only [Sudoku.tryFrom, if_neg hl']
    cases hf : Sudoku.fillCells Sudoku.new 0 (cleanInput s) with
    | none => exact absurd hf (fillCells_ne_none _ _ _)
    | some b => exact ⟨b, rfl⟩

/-- C8 witness: the mapping instantiated on the all-placeholder input at
cell 5. -/
theorem parse_cell_mapping_witness :
    List.get? Sudoku.new 5 =
      (if '1' ≤ (cleanInput (List.replicate 81 '0')).getD 5 ' ' ∧
          (cleanInput (List.replicate 81 '0')).getD 5 ' ' ≤ '9'
        then some (Cell.value
          (((cleanInput (List.replicate 81 '0')).getD 5 ' ').toNat - 48))
        else some (Cell.possibly SudokuCell.all)) :=
  parse_cell_mapping.1 (List.replicate 81 '0') Sudoku.new (by decide) 5
    (by decide)

/-- `solveGroups` consumes one group whose pass result is known. -/
theorem solveGroups_cons {b b' : Board} {g : List Nat}
    (h : Sudoku.solve_constraint b g = some b') (gs : List (List Nat)) :
    Sudoku.solveGroups b (g :: gs) = Sudoku.solveGroups b' gs := by
  simp only [Sudoku.solveGroups, h]

theorem solveGroups_nil (b : Board) : Sudoku.solveGroups b [] = some b := rfl

/-- One unfolding of the `solve` loop on an unfinished board. -/
theorem solveLoop_more {b b' : Board} (hf : Sudoku.finished b = false)
    (hs : Sudoku.step b = some b') (r : Nat) :
    Sudoku.solveLoop b (r + 1) = Sudoku.solveLoop b' r := by
  conv_lhs => rw [Sudoku.solveLoop]
  simp [hf, hs]

/-- The `solve` loop stops on a finished board. -/
theorem solveLoop_finished {b : Board} (hf : Sudoku.finished b = true)
    (r : Nat) : Sudoku.solveLoop b r = some b := by
  conv_lhs => rw [Sudoku.solveLoop]
  simp [hf]

theorem groupsRows_eq : (List.range 9).map Sudoku.row_indices =
    [[0,1,2,3,4,5,6,7,8],[9,10,11,12,13,14,15,16,17],[18,19,20,21,22,23,24,25,26],
     [27,28,29,30,31,32,33,34,35],[36,37,38,39,40,41,42,43,44],[45,46,47,48,49,50,51,52,53],
     [54,55,56,57,58,59,60,61,62],[63,64,65,66,67,68,69,70,71],[72,73,74,75,76,77,78,79,80]] := by
  decide

theorem groupsCols_eq : (List.range 9).map Sudoku.column_indices =
    [[0,9,18,27,36,45,54,63,72],[1,10,19,28,37,46,55,64,73],[2,11,20,29,38,47,56,65,74],
     [3,12,21,30,39,48,57,66,75],[4,13,22,31,40,49,58,67,76],[5,14,23,32,41,50,59,68,77],
     [6,15,24,33,42,51,60,69,78],[7,16,25,34,43,52,61,70,79],[8,17,26,35,44,53,62,71,80]] := by
  decide

theorem groupsBoxes_eq : (List.range 9).map Sudoku.box_indices =
    [[0,1,2,9,10,11,18,19,20],[27,28,29,36,37,38,45,46,47],[54,55,56,63,64,65,72,73,74],
     [3,4,5,12,13,14,21,22,23],[30,31,32,39,40,41,48,49,50],[57,58,59,66,67,68,75,76,77],
     [6,7,8,15,16,17,24,25,26],[33,34,35,42,43,44,51,52,53],[60,61,62,69,70,71,78,79,80]] := by
  decide

theorem pass0 : Sudoku.solve_constraint cB0 [0, 1, 2, 3, 4, 5, 6, 7, 8] = some cB1 := rfl
theorem pass1 : Sudoku.solve_constraint cB1 [9, 10, 11, 12, 13, 14, 15, 16, 17] = some cB2 := rfl
theorem pass2 : Sudoku.solve_constraint cB2 [18, 19, 20, 21, 22, 23, 24, 25, 26] = some cB3 := rfl
theorem pass3 : Sudoku.solve_constraint cB3 [27, 28, 29, 30, 31, 32, 33, 34, 35] = some cB4 := rfl
theorem pass4 : Sudoku.solve_constraint cB4 [36, 37, 38, 39, 40, 41, 42, 43, 44] = some cB5 := rfl
theorem pass5 : Sudoku.solve_constraint cB5 [45, 46, 47, 48, 49, 50, 51, 52, 53] = some cB6 := rfl
theorem pass6 : Sudoku.solve_constraint cB6 [54, 55, 56, 57, 58, 59, 60, 61, 62] = some cB7 := rfl
theorem pass7 : Sudoku.solve_constraint cB7 [63, 64, 65, 66, 67, 68, 69, 70, 71] = some cB8 := rfl
theorem pass8 : Sudoku.solve_constraint cB8 [72, 73, 74, 75, 76, 77, 78, 79, 80] = some cB9 := rfl
theorem pass9 : Sudoku.solve_constraint cB9 [0, 9, 18, 27, 36, 45, 54, 63, 72] = some cB10 := rfl
theorem pass10 : Sudoku.solve_constraint cB10 [1, 10, 19, 28, 37, 46, 55, 64, 73] = some cB11 := rfl
theorem pass11 : Sudoku.solve_constraint cB11 [2, 11, 20, 29, 38, 47, 56, 65, 74] = some cB12 := rfl
theorem pass12 : Sudoku.solve_constraint cB12 [3, 12, 21, 30, 39, 48, 57, 66, 75] = some cB13 := rfl
theorem pass13 : Sudoku.solve_constraint cB13 [4, 13, 22, 31, 40, 49, 58, 67, 76] = some cB14 := rfl
theorem pass14 : Sudoku.solve_constraint cB14 [5, 14, 23, 32, 41, 50, 59, 68, 77] = some cB15 := rfl
theorem pass15 : Sudoku.solve_constraint cB15 [6, 15, 24, 33, 42, 51, 60, 69, 78] = some cB16 := rfl
theorem pass16 : Sudoku.solve_constraint cB16 [7, 16, 25, 34, 43, 52, 61, 70, 79] = some cB17 := rfl
theorem pass17 : Sudoku.solve_constraint cB17 [8, 17, 26, 35, 44, 53, 62, 71, 80] = some cB18 := rfl
theorem pass18 : Sudoku.solve_constraint cB18 [0, 1, 2, 9, 10, 11, 18, 19, 20] = some cB19 := rfl
theorem pass19 : Sudoku.solve_constraint cB19 [27, 28, 29, 36, 37, 38, 45, 46, 47] = some cB20 := rfl
theorem pass20 : Sudoku.solve_constraint cB20 [54, 55, 56, 63, 64, 65, 72, 73, 74] = some cB21 := rfl
theorem pass21 : Sudoku.solve_constraint cB21 [3, 4, 5, 12, 13, 14, 21, 22, 23] = some cB22 := rfl
theorem pass22 : Sudoku.solve_constraint cB22 [30, 31, 32, 39, 40, 41, 48, 49, 50] = some cB23 := rfl
theorem pass23 : Sudoku.solve_constraint cB23 [57, 58, 59, 66, 67, 68, 75, 76, 77] = some cB24 := rfl
theorem pass24 : Sudoku.solve_constraint cB24 [6, 7, 8, 15, 16, 17, 24, 25, 26] = some cB25 := rfl
theorem pass25 : Sudoku.solve_constraint cB25 [33, 34, 35, 42, 43, 44, 51, 52, 53] = some cB26 := rfl
theorem pass26 : Sudoku.solve_constraint cB26 [60, 61, 62, 69, 70, 71, 78, 79, 80] = some cB27 := rfl
theorem pass27 : Sudoku.solve_constraint cB27 [0, 1, 2, 3, 4, 5, 6, 7, 8] = some cB28 := rfl
theorem pass28 : Sudoku.solve_constraint cB28 [9, 10, 11, 12, 13, 14, 15, 16, 17] = some cB29 := rfl
theorem pass29 : Sudoku.solve_constraint cB29 [18, 19, 20, 21, 22, 23, 24, 25, 26] = some cB30 := rfl
theorem pass30 : Sudoku.solve_constraint cB30 [27, 28, 29, 30, 31, 32, 33, 34, 35] = some cB31 := rfl
theorem pass31 : Sudoku.solve_constraint cB31 [36, 37, 38, 39, 40, 41, 42, 43, 44] = some cB32 := rfl
theorem pass32 : Sudoku.solve_constraint cB32 [45, 46, 47, 48, 49, 50, 51, 52, 53] = some cB33 := rfl
theorem pass33 : Sudoku.solve_constraint cB33 [54, 55, 56, 57, 58, 59, 60, 61, 62] = some cB34 := rfl
theorem pass34 : Sudoku.solve_constraint cB34 [63, 64, 65, 66, 67, 68, 69, 70, 71] = some cB35 := rfl
theorem pass35 : Sudoku.solve_constraint cB35 [72, 73, 74, 75, 76, 77, 78, 79, 80] = some cB36 := rfl
theorem pass36 : Sudoku.solve_constraint cB36 [0, 9, 18, 27, 36, 45, 54, 63, 72] = some cB37 := rfl
theorem pass37 : Sudoku.solve_constraint cB37 [1, 10, 19, 28, 37, 46, 55, 64, 73] = some cB38 := rfl
theorem pass38 : Sudoku.solve_constraint cB38 [2, 11, 20, 29, 38, 47, 56, 65, 74] = some cB39 := rfl
theorem pass39 : Sudoku.solve_constraint cB39 [3, 12, 21, 30, 39, 48, 57, 66, 75] = some cB40 := rfl
theorem pass40 : Sudoku.solve_constraint cB40 [4, 13, 22, 31, 40, 49, 58, 67, 76] = some cB41 := rfl
theorem pass41 : Sudoku.solve_constraint cB41 [5, 14, 23, 32, 41, 50, 59, 68, 77] = some cB42 := rfl
theorem pass42 : Sudoku.solve_constraint cB42 [6, 15, 24, 33, 42, 51, 60, 69, 78] = some cB43 := rfl
theorem pass43 : Sudoku.solve_constraint cB43 [7, 16, 25, 34, 43, 52, 61, 70, 79] = some cB44 := rfl
theorem pass44 : Sudoku.solve_constraint cB44 [8, 17, 26, 35, 44, 53, 62, 71, 80] = some cB45 := rfl
theorem pass45 : Sudoku.solve_constraint cB45 [0, 1, 2, 9, 10, 11, 18, 19, 20] = some cB46 := rfl
theorem pass46 : Sudoku.solve_constraint cB46 [27, 28, 29, 36, 37, 38, 45, 46, 47] = some cB47 := rfl
theorem pass47 : Sudoku.solve_constraint cB47 [54, 55, 56, 63, 64, 65, 72, 73, 74] = some cB48 := rfl
theorem pass48 : Sudoku.solve_constraint cB48 [3, 4, 5, 12, 13, 14, 21, 22, 23] = some cB49 := rfl
theorem pass49 : Sudoku.solve_constraint cB49 [30, 31, 32, 39, 40, 41, 48, 49, 50] = some cB50 := rfl
theorem pass50 : Sudoku.solve_constraint cB50 [57, 58, 59, 66, 67, 68, 75, 76, 77] = some cB51 := rfl
theorem pass51 : Sudoku.solve_constraint cB51 [6, 7, 8, 15, 16, 17, 24, 25, 26] = some cB52 := rfl
theorem pass52 : Sudoku.solve_constraint cB52 [33, 34, 35, 42, 43, 44, 51, 52, 53] = some cB53 := rfl
theorem pass53 : Sudoku.solve_constraint cB53 [60, 61, 62, 69, 70, 71, 78, 79, 80] = some cB54 := rfl
theorem pass54 : Sudoku.solve_constraint cB54 [0, 1, 2, 3, 4, 5, 6, 7, 8] = some cB55 := rfl
theorem pass55 : Sudoku.solve_constraint cB55 [9, 10, 11, 12, 13, 14, 15, 16, 17] = some cB56 := rfl
theorem pass56 : Sudoku.solve_constraint cB56 [18, 19, 20, 21, 22, 23, 24, 25, 26] = some cB57 := rfl
theorem pass57 : Sudoku.solve_constraint cB57 [27, 28, 29, 30, 31, 32, 33, 34, 35] = some cB58 := rfl
theorem pass58 : Sudoku.solve_constraint cB58 [36, 37, 38, 39, 40, 41, 42, 43, 44] = some cB59 := rfl
theorem pass59 : Sudoku.solve_constraint cB59 [45, 46, 47, 48, 49, 50, 51, 52, 53] = some cB60 := rfl
theorem pass60 : Sudoku.solve_constraint cB60 [54, 55, 56, 57, 58, 59, 60, 61, 62] = some cB61 := rfl
theorem pass61 : Sudoku.solve_constraint cB61 [63, 64, 65, 66, 67, 68, 69, 70, 71] = some cB62 := rfl
theorem pass62 : Sudoku.solve_constraint cB62 [72, 73, 74, 75, 76, 77, 78, 79, 80] = some cB63 := rfl
theorem pass63 : Sudoku.solve_constraint cB63 [0, 9, 18, 27, 36, 45, 54, 63, 72] = some cB64 := rfl
theorem pass64 : Sudoku.solve_constraint cB64 [1, 10, 19, 28, 37, 46, 55, 64, 73] = some cB65 := rfl
theorem pass65 : Sudoku.solve_constraint cB65 [2, 11, 20, 29, 38, 47, 56, 65, 74] = some cB66 := rfl
theorem pass66 : Sudoku.solve_constraint cB66 [3, 12, 21, 30, 39, 48, 57, 66, 75] = some cB67 := rfl
theorem pass67 : Sudoku.solve_constraint cB67 [4, 13, 22, 31, 40, 49, 58, 67, 76] = some cB68 := rfl
theorem pass68 : Sudoku.solve_constraint cB68 [5, 14, 23, 32, 41, 50, 59, 68, 77] = some cB69 := rfl
theorem pass69 : Sudoku.solve_constraint cB69 [6, 15, 24, 33, 42, 51, 60, 69, 78] = some cB70 := rfl
theorem pass70 : Sudoku.solve_constraint cB70 [7, 16, 25, 34, 43, 52, 61, 70, 79] = some cB71 := rfl
theorem pass71 : Sudoku.solve_constraint cB71 [8, 17, 26, 35, 44, 53, 62, 71, 80] = some cB72 := rfl
theorem pass72 : Sudoku.solve_constraint cB72 [0, 1, 2, 9, 10, 11, 18, 19, 20] = some cB73 := rfl
theorem pass73 : Sudoku.solve_constraint cB73 [27, 28, 29, 36, 37, 38, 45, 46, 47] = some cB74 := rfl
theorem pass74 : Sudoku.solve_constraint cB74 [54, 55, 56, 63, 64, 65, 72, 73, 74] = some cB75 := rfl
theorem pass75 : Sudoku.solve_constraint cB75 [3, 4, 5, 12, 13, 14, 21, 22, 23] = some cB76 := rfl
theorem pass76 : Sudoku.solve_constraint cB76 [30, 31, 32, 39, 40, 41, 48, 49, 50] = some cB77 := rfl
theorem pass77 : Sudoku.solve_constraint cB77 [57, 58, 59, 66, 67, 68, 75, 76, 77] = some cB78 := rfl
theorem pass78 : Sudoku.solve_constraint cB78 [6, 7, 8, 15, 16, 17, 24, 25, 26] = some cB79 := rfl
theorem pass79 : Sudoku.solve_constraint cB79 [33, 34, 35, 42, 43, 44, 51, 52, 53] = some cB80 := rfl
theorem pass80 : Sudoku.solve_constraint cB80 [60, 61, 62, 69, 70, 71, 78, 79, 80] = some cB81 := rfl
theorem pass81 : Sudoku.solve_constraint cB81 [0, 1, 2, 3, 4, 5, 6, 7, 8] = some cB82 := rfl
theorem pass82 : Sudoku.solve_constraint cB82 [9, 10, 11, 12, 13, 14, 15, 16, 17] = some cB83 := rfl
theorem pass83 : Sudoku.solve_constraint cB83 [18, 19, 20, 21, 22, 23, 24, 25, 26] = some cB84 := rfl
theorem pass84 : Sudoku.solve_constraint cB84 [27, 28, 29, 30, 31, 32, 33, 34, 35] = some cB85 := rfl
theorem pass85 : Sudoku.solve_constraint cB85 [36, 37, 38, 39, 40, 41, 42, 43, 44] = some cB86 := rfl
theorem pass86 : Sudoku.solve_constraint cB86 [45, 46, 47, 48, 49, 50, 51, 52, 53] = some cB87 := rfl
theorem pass87 : Sudoku.solve_constraint cB87 [54, 55, 56, 57, 58, 59, 60, 61, 62] = some cB88 := rfl
theorem pass88 : Sudoku.solve_constraint cB88 [63, 64, 65, 66, 67, 68, 69, 70, 71] = some cB89 := rfl
theorem pass89 : Sudoku.solve_constraint cB89 [72, 73, 74, 75, 76, 77, 78, 79, 80] = some cB90 := rfl
theorem pass90 : Sudoku.solve_constraint cB90 [0, 9, 18, 27, 36, 45, 54, 63, 72] = some cB91 := rfl
theorem pass91 : Sudoku.solve_constraint cB91 [1, 10, 19, 28, 37, 46, 55, 64, 73] = some cB92 := rfl
theorem pass92 : Sudoku.solve_constraint cB92 [2, 11, 20, 29, 38, 47, 56, 65, 74] = some cB93 := rfl
theorem pass93 : Sudoku.solve_constraint cB93 [3, 12, 21, 30, 39, 48, 57, 66, 75] = some cB94 := rfl
theorem pass94 : Sudoku.solve_constraint cB94 [4, 13, 22, 31, 40, 49, 58, 67, 76] = some cB95 := rfl
theorem pass95 : Sudoku.solve_constraint cB95 [5, 14, 23, 32, 41, 50, 59, 68, 77] = some cB96 := rfl
theorem pass96 : Sudoku.solve_constraint cB96 [6, 15, 24, 33, 42, 51, 60, 69, 78] = some cB97 := rfl
theorem pass97 : Sudoku.solve_constraint cB97 [7, 16, 25, 34, 43, 52, 61, 70, 79] = some cB98 := rfl
theorem pass98 : Sudoku.solve_constraint cB98 [8, 17, 26, 35, 44, 53, 62, 71, 80] = some cB99 := rfl
theorem pass99 : Sudoku.solve_constraint cB99 [0, 1, 2, 9, 10, 11, 18, 19, 20] = some cB100 := rfl
theorem pass100 : Sudoku.solve_constraint cB100 [27, 28, 29, 36, 37, 38, 45, 46, 47] = some cB101 := rfl
theorem pass101 : Sudoku.solve_constraint cB101 [54, 55, 56, 63, 64, 65, 72, 73, 74] = some cB102 := rfl
theorem pass102 : Sudoku.solve_constraint cB102 [3, 4, 5, 12, 13, 14, 21, 22, 23] = some cB103 := rfl
theorem pass103 : Sudoku.solve_constraint cB103 [30, 31, 32, 39, 40, 41, 48, 49, 50] = some cB104 := rfl
theorem pass104 : Sudoku.solve_constraint cB104 [57, 58, 59, 66, 67, 68, 75, 76, 77] = some cB105 := rfl
theorem pass105 : Sudoku.solve_constraint cB105 [6, 7, 8, 15, 16, 17, 24, 25, 26] = some cB106 := rfl
theorem pass106 : Sudoku.solve_constraint cB106 [33, 34, 35, 42, 43, 44, 51, 52, 53] = some cB107 := rfl
theorem pass107 : Sudoku.solve_constraint cB107 [60, 61, 62, 69, 70, 71, 78, 79, 80] = some cB108 := rfl
theorem pass108 : Sudoku.solve_constraint cB108 [0, 1, 2, 3, 4, 5, 6, 7, 8] = some cB109 := rfl
theorem pass109 : Sudoku.solve_constraint cB109 [9, 10, 11, 12, 13, 14, 15, 16, 17] = some cB110 := rfl
theorem pass110 : Sudoku.solve_constraint cB110 [18, 19, 20, 21, 22, 23, 24, 25, 26] = some cB111 := rfl
theorem pass111 : Sudoku.solve_constraint cB111 [27, 28, 29, 30, 31, 32, 33, 34, 35] = some cB112 := rfl
theorem pass112 : Sudoku.solve_constraint cB112 [36, 37, 38, 39, 40, 41, 42, 43, 44] = some cB113 := rfl
theorem pass113 : Sudoku.solve_constraint cB113 [45, 46, 47, 48, 49, 50, 51, 52, 53] = some cB114 := rfl
theorem pass114 : Sudoku.solve_constraint cB114 [54, 55, 56, 57, 58, 59, 60, 61, 62] = some cB115 := rfl
theorem pass115 : Sudoku.solve_constraint cB115 [63, 64, 65, 66, 67, 68, 69, 70, 71] = some cB116 := rfl
theorem pass116 : Sudoku.solve_constraint cB116 [72, 73, 74, 75, 76, 77, 78, 79, 80] = some cB117 := rfl
theorem pass117 : Sudoku.solve_constraint cB117 [0, 9, 18, 27, 36, 45, 54, 63, 72] = some cB118 := rfl
theorem pass118 : Sudoku.solve_constraint cB118 [1, 10, 19, 28, 37, 46, 55, 64, 73] = some cB119 := rfl
theorem pass119 : Sudoku.solve_constraint cB119 [2, 11, 20, 29, 38, 47, 56, 65, 74] = some cB120 := rfl
theorem pass120 : Sudoku.solve_constraint cB120 [3, 12, 21, 30, 39, 48, 57, 66, 75] = some cB121 := rfl
theorem pass121 : Sudoku.solve_constraint cB121 [4, 13, 22, 31, 40, 49, 58, 67, 76] = some cB122 := rfl
theorem pass122 : Sudoku.solve_constraint cB122 [5, 14, 23, 32, 41, 50, 59, 68, 77] = some cB123 := rfl
theorem pass123 : Sudoku.solve_constraint cB123 [6, 15, 24, 33, 42, 51, 60, 69, 78] = some cB124 := rfl
theorem pass124 : Sudoku.solve_constraint cB124 [7, 16, 25, 34, 43, 52, 61, 70, 79] = some cB125 := rfl
theorem pass125 : Sudoku.solve_constraint cB125 [8, 17, 26, 35, 44, 53, 62, 71, 80] = some cB126 := rfl
theorem pass126 : Sudoku.solve_constraint cB126 [0, 1, 2, 9, 10, 11, 18, 19, 20] = some cB127 := rfl
theorem pass127 : Sudoku.solve_constraint cB127 [27, 28, 29, 36, 37, 38, 45, 46, 47] = some cB128 := rfl
theorem pass128 : Sudoku.solve_constraint cB128 [54, 55, 56, 63, 64, 65, 72, 73, 74] = some cB129 := rfl
theorem pass129 : Sudoku.solve_constraint cB129 [3, 4, 5, 12, 13, 14, 21, 22, 23] = some cB130 := rfl
theorem pass130 : Sudoku.solve_constraint cB130 [30, 31, 32, 39, 40, 41, 48, 49, 50] = some cB131 := rfl
theorem pass131 : Sudoku.solve_constraint cB131 [57, 58, 59, 66, 67, 68, 75, 76, 77] = some cB132 := rfl
theorem pass132 : Sudoku.solve_constraint cB132 [6, 7, 8, 15, 16, 17, 24, 25, 26] = some cB133 := rfl
theorem pass133 : Sudoku.solve_constraint cB133 [33, 34, 35, 42, 43, 44, 51, 52, 53] = some cB134 := rfl
theorem pass134 : Sudoku.solve_constraint cB134 [60, 61, 62, 69, 70, 71, 78, 79, 80] = some cB135 := rfl
theorem pass135 : Sudoku.solve_constraint cB135 [0, 1, 2, 3, 4, 5, 6, 7, 8] = some cB136 := rfl
theorem pass136 : Sudoku.solve_constraint cB136 [9, 10, 11, 12, 13, 14, 15, 16, 17] = some cB137 := rfl
theorem pass137 : Sudoku.solve_constraint cB137 [18, 19, 20, 21, 22, 23, 24, 25, 26] = some cB138 := rfl
theorem pass138 : Sudoku.solve_constraint cB138 [27, 28, 29, 30, 31, 32, 33, 34, 35] = some cB139 := rfl
theorem pass139 : Sudoku.solve_constraint cB139 [36, 37, 38, 39, 40, 41, 42, 43, 44] = some cB140 := rfl
theorem pass140 : Sudoku.solve_constraint cB140 [45, 46, 47, 48, 49, 50, 51, 52, 53] = some cB141 := rfl
theorem pass141 : Sudoku.solve_constraint cB141 [54, 55, 56, 57, 58, 59, 60, 61, 62] = some cB142 := rfl
theorem pass142 : Sudoku.solve_constraint cB142 [63, 64, 65, 66, 67, 68, 69, 70, 71] = some cB143 := rfl
theorem pass143 : Sudoku.solve_constraint cB143 [72, 73, 74, 75, 76, 77, 78, 79, 80] = some cB144 := rfl
theorem pass144 : Sudoku.solve_constraint cB144 [0, 9, 18, 27, 36, 45, 54, 63, 72] = some cB145 := rfl
theorem pass145 : Sudoku.solve_constraint cB145 [1, 10, 19, 28, 37, 46, 55, 64, 73] = some cB146 := rfl
theorem pass146 : Sudoku.solve_constraint cB146 [2, 11, 20, 29, 38, 47, 56, 65, 74] = some cB147 := rfl
theorem pass147 : Sudoku.solve_constraint cB147 [3, 12, 21, 30, 39, 48, 57, 66, 75] = some cB148 := rfl
theorem pass148 : Sudoku.solve_constraint cB148 [4, 13, 22, 31, 40, 49, 58, 67, 76] = some cB149 := rfl
theorem pass149 : Sudoku.solve_constraint cB149 [5, 14, 23, 32, 41, 50, 59, 68, 77] = some cB150 := rfl
theorem pass150 : Sudoku.solve_constraint cB150 [6, 15, 24, 33, 42, 51, 60, 69, 78] = some cB151 := rfl
theorem pass151 : Sudoku.solve_constraint cB151 [7, 16, 25, 34, 43, 52, 61, 70, 79] = some cB152 := rfl
theorem pass152 : Sudoku.solve_constraint cB152 [8, 17, 26, 35, 44, 53, 62, 71, 80] = some cB153 := rfl
theorem pass153 : Sudoku.solve_constraint cB153 [0, 1, 2, 9, 10, 11, 18, 19, 20] = some cB154 := rfl
theorem pass154 : Sudoku.solve_constraint cB154 [27, 28, 29, 36, 37, 38, 45, 46, 47] = some cB155 := rfl
theorem pass155 : Sudoku.solve_constraint cB155 [54, 55, 56, 63, 64, 65, 72, 73, 74] = some cB156 := rfl
theorem pass156 : Sudoku.solve_constraint cB156 [3, 4, 5, 12, 13, 14, 21, 22, 23] = some cB157 := rfl
theorem pass157 : Sudoku.solve_constraint cB157 [30, 31, 32, 39, 40, 41, 48, 49, 50] = some cB158 := rfl
theorem pass158 : Sudoku.solve_constraint cB158 [57, 58, 59, 66, 67, 68, 75, 76, 77] = some cB159 := rfl
theorem pass159 : Sudoku.solve_constraint cB159 [6, 7, 8, 15, 16, 17, 24, 25, 26] = some cB160 := rfl
theorem pass160 : Sudoku.solve_constraint cB160 [33, 34, 35, 42, 43, 44, 51, 52, 53] = some cB161 := rfl
theorem pass161 : Sudoku.solve_constraint cB161 [60, 61, 62, 69, 70, 71, 78, 79, 80] = some cB162 := rfl

theorem rows0 : Sudoku.solve_rows cB0 = some cB9 := by
  rw [Sudoku.solve_rows, groupsRows_eq, solveGroups_cons pass0, solveGroups_cons pass1, solveGroups_cons pass2, solveGroups_cons pass3, solveGroups_cons pass4, solveGroups_cons pass5, solveGroups_cons pass6, solveGroups_cons pass7, solveGroups_cons pass8, solveGroups_nil]

theorem cols0 : Sudoku.solve_columns cB9 = some cB18 := by
  rw [Sudoku.solve_columns, groupsCols_eq, solveGroups_cons pass9, solveGroups_cons pass10, solveGroups_cons pass11, solveGroups_cons pass12, solveGroups_cons pass13, solveGroups_cons pass14, solveGroups_cons pass15, solveGroups_cons pass16, solveGroups_cons pass17, solveGroups_nil]

theorem boxes0 : Sudoku.solve_boxes cB18 = some cB27 := by
  rw [Sudoku.solve_boxes, groupsBoxes_eq, solveGroups_cons pass18, solveGroups_cons pass19, solveGroups_cons pass20, solveGroups_cons pass21, solveGroups_cons pass22, solveGroups_cons pass23, solveGroups_cons pass24, solveGroups_cons pass25, solveGroups_cons pass26, solveGroups_nil]

theorem stepB0 : Sudoku.step cB0 = some cB27 := by
  simp only [Sudoku.step, rows0, cols0, boxes0]

theorem rows1 : Sudoku.solve_rows cB27 = some cB36 := by
  rw [Sudoku.solve_rows, groupsRows_eq, solveGroups_cons pass27, solveGroups_cons pass28, solveGroups_cons pass29, solveGroups_cons pass30, solveGroups_cons pass31, solveGroups_cons pass32, solveGroups_cons pass33, solveGroups_cons pass34, solveGroups_cons pass35, solveGroups_nil]

theorem cols1 : Sudoku.solve_columns cB36 = some cB45 := by
  rw [Sudoku.solve_columns, groupsCols_eq, solveGroups_cons pass36, solveGroups_cons pass37, solveGroups_cons pass38, solveGroups_cons pass39, solveGroups_cons pass40, solveGroups_cons pass41, solveGroups_cons pass42, solveGroups_cons pass43, solveGroups_cons pass44, solveGroups_nil]

theorem boxes1 : Sudoku.solve_boxes cB45 = some cB54 := by
  rw [Sudoku.solve_boxes, groupsBoxes_eq, solveGroups_cons pass45, solveGroups_cons pass46, solveGroups_cons pass47, solveGroups_cons pass48, solveGroups_cons pass49, solveGroups_cons pass50, solveGroups_cons pass51, solveGroups_cons pass52, solveGroups_cons pass53, solveGroups_nil]

theorem stepB1 : Sudoku.step cB27 = some cB54 := by
  simp only [Sudoku.step, rows1, cols1, boxes1]

theorem rows2 : Sudoku.solve_rows cB54 = some cB63 := by
  rw [Sudoku.solve_rows, groupsRows_eq, solveGroups_cons pass54, solveGroups_cons pass55, solveGroups_cons pass56, solveGroups_cons pass57, solveGroups_cons pass58, solveGroups_cons pass59, solveGroups_cons pass60, solveGroups_cons pass61, solveGroups_cons pass62, solveGroups_nil]

theorem cols2 : Sudoku.solve_columns cB63 = some cB72 := by
  rw [Sudoku.solve_columns, groupsCols_eq, solveGroups_cons pass63, solveGroups_cons pass64, solveGroups_cons pass65, solveGroups_cons pass66, solveGroups_cons pass67, solveGroups_cons pass68, solveGroups_cons pass69, solveGroups_cons pass70, solveGroups_cons pass71, solveGroups_nil]

theorem boxes2 : Sudoku.solve_boxes cB72 = some cB81 := by
  rw [Sudoku.solve_boxes, groupsBoxes_eq, solveGroups_cons pass72, solveGroups_cons pass73, solveGroups_cons pass74, solveGroups_cons pass75, solveGroups_cons pass76, solveGroups_cons pass77, solveGroups_cons pass78, solveGroups_cons pass79, solveGroups_cons pass80, solveGroups_nil]

theorem stepB2 : Sudoku.step cB54 = some cB81 := by
  simp only [Sudoku.step, rows2, cols2, boxes2]

theorem rows3 : Sudoku.solve_rows cB81 = some cB90 := by
  rw [Sudoku.solve_rows, groupsRows_eq, solveGroups_cons pass81, solveGroups_cons pass82, solveGroups_cons pass83, solveGroups_cons pass84, solveGroups_cons pass85, solveGroups_cons pass86, solveGroups_cons pass87, solveGroups_cons pass88, solveGroups_cons pass89, solveGroups_nil]

theorem cols3 : Sudoku.solve_columns cB90 = some cB99 := by
  rw [Sudoku.solve_columns, groupsCols_eq, solveGroups_cons pass90, solveGroups_cons pass91, solveGroups_cons pass92, solveGroups_cons pass93, solveGroups_cons pass94, solveGroups_cons pass95, solveGroups_cons pass96, solveGroups_cons pass97, solveGroups_cons pass98, solveGroups_nil]

theorem boxes3 : Sudoku.solve_boxes cB99 = some cB108 := by
  rw [Sudoku.solve_boxes, groupsBoxes_eq, solveGroups_cons pass99, solveGroups_cons pass100, solveGroups_cons pass101, solveGroups_cons pass102, solveGroups_cons pass103, solveGroups_cons pass104, solveGroups_cons pass105, solveGroups_cons pass106, solveGroups_cons pass107, solveGroups_nil]

theorem stepB3 : Sudoku.step cB81 = some cB108 := by
  simp only [Sudoku.step, rows3, cols3, boxes3]

theorem rows4 : Sudoku.solve_rows cB108 = some cB117 := by
  rw [Sudoku.solve_rows, groupsRows_eq, solveGroups_cons pass108, solveGroups_cons pass109, solveGroups_cons pass110, solveGroups_cons pass111, solveGroups_cons pass112, solveGroups_cons pass113, solveGroups_cons pass114, solveGroups_cons pass115, solveGroups_cons pass116, solveGroups_nil]

theorem cols4 : Sudoku.solve_columns cB117 = some cB126 := by
  rw [Sudoku.solve_columns, groupsCols_eq, solveGroups_cons pass117, solveGroups_cons pass118, solveGroups_cons pass119, solveGroups_cons pass120, solveGroups_cons pass121, solveGroups_cons pass122, solveGroups_cons pass123, solveGroups_cons pass124, solveGroups_cons pass125, solveGroups_nil]

theorem boxes4 : Sudoku.solve_boxes cB126 = some cB135 := by
  rw [Sudoku.solve_boxes, groupsBoxes_eq, solveGroups_cons pass126, solveGroups_cons pass127, solveGroups_cons pass128, solveGroups_cons pass129, solveGroups_cons pass130, solveGroups_cons pass131, solveGroups_cons pass132, solveGroups_cons pass133, solveGroups_cons pass134, solveGroups_nil]

theorem stepB4 : Sudoku.step cB108 = some cB135 := by
  simp only [Sudoku.step, rows4, cols4, boxes4]

theorem rows5 : Sudoku.solve_rows cB135 = some cB144 := by
  rw [Sudoku.solve_rows, groupsRows_eq, solveGroups_cons pass135, solveGroups_cons pass136, solveGroups_cons pass137, solveGroups_cons pass138, solveGroups_cons pass139, solveGroups_cons pass140, solveGroups_cons pass141, solveGroups_cons pass142, solveGroups_cons pass143, solveGroups_nil]

theorem cols5 : Sudoku.solve_columns cB144 = some cB153 := by
  rw [Sudoku.solve_columns, groupsCols_eq, solveGroups_cons pass144, solveGroups_cons pass145, solveGroups_cons pass146, solveGroups_cons pass147, solveGroups_cons pass148, solveGroups_cons pass149, solveGroups_cons pass150, solveGroups_cons pass151, solveGroups_cons pass152, solveGroups_nil]

theorem boxes5 : Sudoku.solve_boxes cB153 = some cB162 := by
  rw [Sudoku.solve_boxes, groupsBoxes_eq, solveGroups_cons pass153, solveGroups_cons pass154, solveGroups_cons pass155, solveGroups_cons pass156, solveGroups_cons pass157, solveGroups_cons pass158, solveGroups_cons pass159, solveGroups_cons pass160, solveGroups_cons pass161, solveGroups_nil]

theorem stepB5 : Sudoku.step cB135 = some cB162 := by
  simp only [Sudoku.step, rows5, cols5, boxes5]

theorem finB0 : Sudoku.finished cB0 = false := by decide
theorem finB1 : Sudoku.finished cB27 = false := by decide
theorem finB2 : Sudoku.finished cB54 = false := by decide
theorem finB3 : Sudoku.finished cB81 = false := by decide
theorem finB4 : Sudoku.finished cB108 = false := by decide
theorem finB5 : Sudoku.finished cB135 = false := by decide
theorem finB6 : Sudoku.finished cB162 = true := by decide

theorem initialCells_eq : initialCells = cB0 := by decide

theorem solvedCells_eq : cB162 = solvedCells := by decide

/-- The staged end-to-end run: `solve` performs exactly 6 rounds on the
parsed puzzle and stops with the fully solved board. -/
theorem solve_staged : Sudoku.solve cB0 = some cB162 := by
  rw [Sudoku.solve]
  calc Sudoku.solveLoop cB0 81
      = Sudoku.solveLoop cB27 80 := solveLoop_more finB0 stepB0 80
    _ = Sudoku.solveLoop cB54 79 := solveLoop_more finB1 stepB1 79
    _ = Sudoku.solveLoop cB81 78 := solveLoop_more finB2 stepB2 78
    _ = Sudoku.solveLoop cB108 77 := solveLoop_more finB3 stepB3 77
    _ = Sudoku.solveLoop cB135 76 := solveLoop_more finB4 stepB4 76
    _ = Sudoku.solveLoop cB162 75 := solveLoop_more finB5 stepB5 75
    _ = some cB162 := solveLoop_finished finB6 75

/-- C2: parsing the end-to-end puzzle succeeds, and `solve` (repeated
`step()` rounds until every cell is fixed) reaches exactly the claimed
fully solved board: every cell `Value` of the corresponding digit of
the solution string. -/
theorem end_to_end_puzzle_solved :
    Sudoku.tryFrom puzzleChars = Except.ok initialCells ∧
    Sudoku.solve initialCells = some solvedCells ∧
    Sudoku.finished solvedCells = true := by
  refine ⟨by decide, ?_, by decide⟩
  rw [initialCells_eq, solve_staged, solvedCells_eq]
